import Mathlib

/-!
# Verification development for `src/main.cpp` (OpenCL a+b pipeline)

Shallow embedding of the host program: `reportError`, the resource wrappers,
`chooseDevice`, the launch-grid computation, the throughput formula, the build
step and the verification loop of `main`.

Modelling conventions.
* The OpenCL runtime, the timer, the random generator and the kernel are not
  part of the program text: everything they return (status codes, enumerated
  devices, build log, timings, array contents) is an input, collected in
  `Driver` and `Enumeration` and in the arrays `as`, `bs`, `cs`.
* A run yields the list of observable events it performed (`Ev`) together with
  either a returned value or the message of the exception that ended it.
* `cl_int` and `int` values are integers, `size_t` arithmetic is taken modulo
  `2 ^ sizeBits`, handles are natural numbers with `0` for `nullptr`,
  double-precision quantities are exact rationals, and `float` with its `+` and
  `!=` is a parameter of the verification loop.
* Leaving a scope runs the destructors of the wrappers declared in it, on the
  normal path and on the exceptional one. For an exception that leaves `main`
  uncaught C++ lets the implementation decide whether the stack is unwound; the
  model takes the reading under which the wrappers do what the comment above
  `context_raii` announces.
* Failure of host memory allocation (`std::bad_alloc`) is not modelled.
-/

namespace APlusB

/-! ## Observable events and runs -/

/-- Device objects a run can hold: the seven wrapped ones and the `cl_event`s
returned by the enqueue calls of lap `i` of the two timing loops. -/
inductive Res
  | context
  | commandQueue
  | aBuf
  | bBuf
  | cBuf
  | program
  | kernel
  | kernelEvent (i : Nat)
  | readEvent (i : Nat)
  deriving DecidableEq, Repr

/-- Observable events of a run, in program order. -/
inductive Ev
  /-- text written to `std::cout` -/
  | out (s : String)
  /-- numeric value written to `std::cout` -/
  | outNum (q : ℚ)
  /-- manipulator `std::endl` written to `std::cout` -/
  | endl
  /-- call of `clGetDeviceInfo(device, CL_DEVICE_TYPE, ...)` on handle `device` -/
  | getDeviceInfo (device : Nat)
  /-- a creating API call reported success: object `r` now exists -/
  | create (r : Res)
  /-- the release call for object `r` was made -/
  | release (r : Res)
  deriving DecidableEq

deriving instance DecidableEq for Except

/-- Outcome of running a piece of the program: the events performed and either
the value produced or the `what()` of the `std::runtime_error` thrown. -/
structure Run (α : Type) where
  trace : List Ev
  result : Except String α
  deriving DecidableEq

namespace Run

/-- Completes normally with value `a`, no event. -/
def ret {α : Type} (a : α) : Run α := ⟨[], .ok a⟩

/-- Statement `throw std::runtime_error(msg)`. -/
def raise {α : Type} (msg : String) : Run α := ⟨[], .error msg⟩

/-- Performs the single event `e`. -/
def emit (e : Ev) : Run Unit := ⟨[e], .ok ()⟩

/-- Sequencing: `f` runs only when `m` completed normally. -/
def andThen {α β : Type} (m : Run α) (f : α → Run β) : Run β :=
  match m.result with
  | .error msg => ⟨m.trace, .error msg⟩
  | .ok a => ⟨m.trace ++ (f a).trace, (f a).result⟩

instance : Monad Run where
  pure := ret
  bind := andThen

/-- Scope exit: `dtor` runs after `body` whether `body` completed or threw, and
the outcome of `body` is kept. -/
def finally_ {α : Type} (body : Run α) (dtor : Run Unit) : Run α :=
  ⟨body.trace ++ dtor.trace, body.result⟩

end Run

open Run

/-! ## Constants of `CL/cl.h` used by the program

The header is not among the sources; the constants carry the values the OpenCL
headers give them. The statements below depend on these values only through
`CL_DEVICE_TYPE_CPU ≠ CL_DEVICE_TYPE_GPU` and in the concrete examples. -/

/-- Status `CL_SUCCESS`. -/
def CL_SUCCESS : Int := 0

/-- Status `CL_INVALID_BUFFER_SIZE`. -/
def CL_INVALID_BUFFER_SIZE : Int := -61

/-- Status `CL_INVALID_GLOBAL_WORK_SIZE`. -/
def CL_INVALID_GLOBAL_WORK_SIZE : Int := -63

/-- Type bit `CL_DEVICE_TYPE_CPU` (`1 << 1`). -/
def CL_DEVICE_TYPE_CPU : Nat := 2

/-- Type bit `CL_DEVICE_TYPE_GPU` (`1 << 2`). -/
def CL_DEVICE_TYPE_GPU : Nat := 4

/-! ## `reportError` and `OCL_SAFE_CALL` -/

/-- Function `reportError(err, filename, line, throwError)`, the last argument
being named `throwErr` here; `to_string` of an integer is its decimal text. -/
def reportError (err : Int) (filename : String) (line : Int) (throwErr : Bool) : Run Unit :=
  if CL_SUCCESS = err then
    ret ()
  else
    let message :=
      "OpenCL error code " ++ toString err ++ " encountered at " ++ filename ++ ":" ++ toString line
    if throwErr then
      raise message
    else
      emit (.out message)

/-- Macro `OCL_SAFE_CALL(expr)`: `reportError(expr, __FILE__, __LINE__)` with the
default `throwError = true`; `file` and `line` stand for `__FILE__`, `__LINE__`. -/
def OCL_SAFE_CALL (err : Int) (file : String) (line : Int) : Run Unit :=
  reportError err file line true

/-! ## `chooseDevice` -/

/-- One enumerated device: its handle and what `clGetDeviceInfo` answers for it. -/
structure Device where
  /-- the `cl_device_id`, `0` being `nullptr` -/
  handle : Nat
  /-- status returned by `clGetDeviceInfo(device, CL_DEVICE_TYPE, ...)` -/
  infoStatus : Int
  /-- the `cl_device_type` value stored by that call -/
  deviceType : Nat
  deriving DecidableEq, Repr

/-- One enumerated platform: the statuses of its two `clGetDeviceIDs` calls and
the devices the second call stores. -/
structure Platform where
  countStatus : Int
  listStatus : Int
  devices : List Device
  deriving DecidableEq, Repr

/-- What the runtime answers to the enumeration calls of `chooseDevice`. -/
structure Enumeration where
  countStatus : Int
  listStatus : Int
  platforms : List Platform
  deriving DecidableEq, Repr

/-- How one pass over a device list ends: `return device` was executed, or the
loop ran to its end with the current value of `cpuDevice`. -/
inductive Flow
  | returned (device : Nat)
  | next (cpuDevice : Nat)
  deriving DecidableEq, Repr

/-- Inner loop `for (cl_device_id device : devices)` of `chooseDevice`, started
with the current `cpuDevice`. -/
def deviceLoop (file : String) : List Device → Nat → Run Flow
  | [], cpuDevice => ret (.next cpuDevice)
  | device :: rest, cpuDevice => do
    emit (.getDeviceInfo device.handle)
    OCL_SAFE_CALL device.infoStatus file 94
    if device.deviceType = CL_DEVICE_TYPE_CPU then
      deviceLoop file rest device.handle
    else if device.deviceType = CL_DEVICE_TYPE_GPU then
      ret (.returned device.handle)
    else
      deviceLoop file rest cpuDevice

/-- Outer loop `for (cl_platform_id platform : platforms)` of `chooseDevice`. -/
def platformLoop (file : String) : List Platform → Nat → Run Flow
  | [], cpuDevice => ret (.next cpuDevice)
  | platform :: rest, cpuDevice => do
    OCL_SAFE_CALL platform.countStatus file 88
    OCL_SAFE_CALL platform.listStatus file 90
    match ← deviceLoop file platform.devices cpuDevice with
    | .returned device => ret (.returned device)
    | .next cpuDevice => platformLoop file rest cpuDevice

/-- Function `chooseDevice()`; the result is the returned `cl_device_id`. -/
def chooseDevice (file : String) (e : Enumeration) : Run Nat := do
  let cpuDevice := 0
  OCL_SAFE_CALL e.countStatus file 82
  OCL_SAFE_CALL e.listStatus file 84
  match ← platformLoop file e.platforms cpuDevice with
  | .returned device => ret device
  | .next cpuDevice =>
    if cpuDevice = 0 then
      raise "Unable to find neither a GPU nor a CPU device"
    else
      ret cpuDevice

/-! ## Launch grid -/

/-- Expression `(n + workGroupSize - 1) / workGroupSize * workGroupSize` of
`main`, evaluated left to right in `size_t` of `sizeBits` bits: the sum, the
subtraction of one (adding `2 ^ sizeBits - 1`), the division, the product, each
reduced modulo `2 ^ sizeBits`. -/
def roundUp (sizeBits : Nat) (n workGroupSize : Nat) : Nat :=
  let m := 2 ^ sizeBits
  let sum := (n % m + workGroupSize % m) % m
  let dec := (sum + (m - 1)) % m
  (dec / (workGroupSize % m)) * (workGroupSize % m) % m

/-- Value of `globalWorkSize` in `main` for element count `n`, with
`workGroupSize = 128`. -/
def globalWorkSize (sizeBits : Nat) (n : Nat) : Nat :=
  roundUp sizeBits n 128

/-! ## Throughput figures -/

/-- Expression `n / t.lapAvg() / 10e9` printed after `"GFlops: "`; the literal
`10e9` is ten times `10 ^ 9`. Double-precision quantities are taken as exact
rationals. -/
def gflops (n : Nat) (lapAvg : ℚ) : ℚ :=
  (n : ℚ) / lapAvg / (10 * 10 ^ 9)

/-- Expression `3.0 * bufSize / t.lapAvg() / (1 << 30)` printed after
`"VRAM bandwidth: "`. -/
def vramBandwidth (bufSize : Nat) (lapAvg : ℚ) : ℚ :=
  3 * (bufSize : ℚ) / lapAvg / (2 ^ 30 : ℚ)

/-- Expression `bufSize / t.lapAvg() / (1 << 30)` printed after
`"VRAM -> RAM bandwidth: "`. -/
def readBandwidth (bufSize : Nat) (lapAvg : ℚ) : ℚ :=
  (bufSize : ℚ) / lapAvg / (2 ^ 30 : ℚ)

/-! ## Verification loop -/

/-- Single-precision operations the verification uses: `x + y` and `x != y` on
`float`. -/
structure FloatOps (F : Type) where
  add : F → F → F
  ne : F → F → Bool

/-- Loop `for (unsigned int i = ...; i < n; ++i)` of the verification with
`count` iterations left, the next index being `i`. -/
def verifyLoop {F : Type} (ops : FloatOps F) (as bs cs : Nat → F) : Nat → Nat → Run Unit
  | 0, _ => ret ()
  | count + 1, i =>
    if ops.ne (cs i) (ops.add (as i) (bs i)) then
      raise "CPU and GPU results differ!"
    else
      verifyLoop ops as bs cs count (i + 1)

/-- Verification loop of `main` over the `n` elements of `as`, `bs`, `cs`. -/
def verify {F : Type} (ops : FloatOps F) (as bs cs : Nat → F) (n : Nat) : Run Unit :=
  verifyLoop ops as bs cs n 0

/-- End of `main`: the verification loop followed by `return 0`. -/
def verifyAndReturn {F : Type} (ops : FloatOps F) (as bs cs : Nat → F) (n : Nat) : Run Int := do
  verify ops as bs cs n
  ret 0

/-! ## The pipeline of `main` -/

/-- Facts fixed by the compiler and target rather than by the program text. -/
structure Toolchain where
  /-- expansion of `__FILE__` -/
  file : String
  /-- width of `size_t` in bits -/
  sizeBits : Nat
  /-- expansion of `__LINE__` in the `OCL_SAFE_CALL` spanning lines 260 to 270 -/
  lineNDRange : Int
  /-- expansion of `__LINE__` in the `OCL_SAFE_CALL` spanning lines 303 to 313 -/
  lineRead : Int

/-- Everything the environment answers during one run of `main`. Statuses of
calls whose arguments depend on the element count are functions of those
arguments. -/
structure Driver where
  /-- result of `ocl_init()` -/
  oclInit : Bool
  enumeration : Enumeration
  /-- value of `errCode` stored by `clCreateContext` -/
  createContext : Int
  /-- value of `errCode` stored by `clCreateCommandQueue` -/
  createCommandQueue : Int
  /-- value of `errCode` stored by `clCreateBuffer` for the given buffer and byte size -/
  createBuffer : Res → Nat → Int
  /-- content read from `src/cl/aplusb.cl`, empty when the file cannot be read -/
  kernelSources : String
  /-- value of `errCode` stored by `clCreateProgramWithSource` -/
  createProgram : Int
  /-- status returned by `clBuildProgram` -/
  buildProgram : Int
  /-- status of the `clGetProgramBuildInfo` call asking for the log size -/
  buildLogSizeStatus : Int
  /-- value of `programBuildLogSize` stored by that call -/
  buildLogSize : Nat
  /-- status of the `clGetProgramBuildInfo` call asking for the log -/
  buildLogStatus : Int
  /-- characters of the build log the runtime holds -/
  buildLog : List Char
  /-- value of `errCode` stored by `clCreateKernel` -/
  createKernel : Int
  /-- status of `clSetKernelArg` for the given argument index -/
  setKernelArg : Nat → Int
  /-- status of `clEnqueueNDRangeKernel` in lap `i` for the given global and
  local work sizes -/
  enqueueNDRange : Nat → Nat → Nat → Int
  /-- status of `clWaitForEvents` in lap `i` of the kernel loop -/
  waitKernel : Nat → Int
  /-- status of `clEnqueueReadBuffer` in lap `i` for the given byte size -/
  enqueueRead : Nat → Nat → Int
  /-- status of `clWaitForEvents` in lap `i` of the read loop -/
  waitRead : Nat → Int
  /-- status returned by the release call of a wrapper destructor -/
  release : Res → Int
  /-- value of `t.lapAvg()` of the kernel timer -/
  kernelLapAvg : ℚ
  /-- value of `t.lapStd()` of the kernel timer -/
  kernelLapStd : ℚ
  /-- value of `t.lapAvg()` of the read timer -/
  readLapAvg : ℚ
  /-- value of `t.lapStd()` of the read timer -/
  readLapStd : ℚ

/-- Text `std::cout << programBuildLog.data()` writes: the buffer holds the
first `size` characters of the log followed by a zero, and is written up to its
first zero character. -/
def printedLog (log : List Char) (size : Nat) : String :=
  String.mk ((log.take size).takeWhile (fun c => c ≠ Char.ofNat 0))

/-- Destructor of the wrapper holding object `r`: the release call, whose status
goes to `reportError(..., __FILE__, __LINE__, false)` at line `dtorLine`. -/
def destructor (tc : Toolchain) (api : Driver) (r : Res) (dtorLine : Int) : Run Unit := do
  emit (.release r)
  reportError (api.release r) tc.file dtorLine false

/-- Declaration of a wrapper (`context_raii`, `command_queue_raii`, `mem_raii`,
`program_raii`, `kernel_raii`) initialised by a creating call that stored
`status`, followed by the rest of the enclosing scope `rest`; the destructor,
whose `reportError` sits at line `dtorLine`, runs when the scope is left. -/
def raii {α : Type} (tc : Toolchain) (api : Driver) (r : Res) (dtorLine : Int)
    (status : Int) (rest : Run α) : Run α :=
  finally_
    (do
      if status = CL_SUCCESS then emit (.create r)
      rest)
    (destructor tc api r dtorLine)

/-- Loop `for (unsigned int i = ...; i < 20; ++i)` around
`clEnqueueNDRangeKernel` and `clWaitForEvents`, with `count` laps left. -/
def kernelLaps (tc : Toolchain) (api : Driver) (globalWorkSize workGroupSize : Nat) :
    Nat → Nat → Run Unit
  | 0, _ => ret ()
  | count + 1, i => do
    let status := api.enqueueNDRange i globalWorkSize workGroupSize
    if status = CL_SUCCESS then emit (.create (.kernelEvent i))
    OCL_SAFE_CALL status tc.file tc.lineNDRange
    OCL_SAFE_CALL (api.waitKernel i) tc.file 272
    kernelLaps tc api globalWorkSize workGroupSize count (i + 1)

/-- Loop `for (unsigned int i = ...; i < 20; ++i)` around `clEnqueueReadBuffer`
and `clWaitForEvents`, with `count` laps left. -/
def readLaps (tc : Toolchain) (api : Driver) (bufSize : Nat) : Nat → Nat → Run Unit
  | 0, _ => ret ()
  | count + 1, i => do
    let status := api.enqueueRead i bufSize
    if status = CL_SUCCESS then emit (.create (.readEvent i))
    OCL_SAFE_CALL status tc.file tc.lineRead
    OCL_SAFE_CALL (api.waitRead i) tc.file 314
    readLaps tc api bufSize count (i + 1)

/-- Lines 205 to 228 of `main`: `clBuildProgram`, the build log on failure, then
the check of the build status. -/
def buildStep (tc : Toolchain) (api : Driver) : Run Unit := do
  let errCode := api.buildProgram
  if errCode ≠ CL_SUCCESS then
    OCL_SAFE_CALL api.buildLogSizeStatus tc.file 218
    OCL_SAFE_CALL api.buildLogStatus tc.file 220
    if api.buildLogSize > 1 then
      emit (.out "Program build log:")
      emit .endl
      emit (.out (printedLog api.buildLog api.buildLogSize))
      emit .endl
    else
      emit (.out "Program build failed with no logs")
      emit .endl
  OCL_SAFE_CALL errCode tc.file 228

/-- Lines 235 to 328 of `main`, the part run once the kernel exists: argument
binding, the timed launches, the timed read-backs, the verification. -/
def dispatchStep {F : Type} (tc : Toolchain) (api : Driver) (ops : FloatOps F) (n : Nat)
    (bufSize : Nat) (as bs cs : Nat → F) : Run Int := do
  OCL_SAFE_CALL (api.setKernelArg 0) tc.file 238
  OCL_SAFE_CALL (api.setKernelArg 1) tc.file 239
  OCL_SAFE_CALL (api.setKernelArg 2) tc.file 240
  OCL_SAFE_CALL (api.setKernelArg 3) tc.file 241
  let workGroupSize := 128
  kernelLaps tc api (globalWorkSize tc.sizeBits n) workGroupSize 20 0
  emit (.out "Kernel average time: ")
  emit (.outNum api.kernelLapAvg)
  emit (.out "+-")
  emit (.outNum api.kernelLapStd)
  emit (.out " s")
  emit .endl
  emit (.out "GFlops: ")
  emit (.outNum (gflops n api.kernelLapAvg))
  emit .endl
  emit (.out "VRAM bandwidth: ")
  emit (.outNum (vramBandwidth bufSize api.kernelLapAvg))
  emit (.out " GB/s")
  emit .endl
  readLaps tc api bufSize 20 0
  emit (.out "Result data transfer time: ")
  emit (.outNum api.readLapAvg)
  emit (.out "+-")
  emit (.outNum api.readLapStd)
  emit (.out " s")
  emit .endl
  emit (.out "VRAM -> RAM bandwidth: ")
  emit (.outNum (readBandwidth bufSize api.readLapAvg))
  emit (.out " GB/s")
  emit .endl
  verifyAndReturn ops as bs cs n

/-- Lines 185 to 328 of `main`: reading the kernel source, creating and building
the program, creating the kernel and running the rest. -/
def programStep {F : Type} (tc : Toolchain) (api : Driver) (ops : FloatOps F) (n : Nat)
    (bufSize : Nat) (as bs cs : Nat → F) : Run Int := do
  let kernelSources := api.kernelSources
  if kernelSources.isEmpty then
    raise "Empty source file! May be you forgot to configure working directory properly?"
  else
    raii tc api .program 66 api.createProgram do
      OCL_SAFE_CALL api.createProgram tc.file 201
      buildStep tc api
      raii tc api .kernel 74 api.createKernel do
        OCL_SAFE_CALL api.createKernel tc.file 233
        dispatchStep tc api ops n bufSize as bs cs

/-- Function `main()` run with element count `n`, generated inputs `as`, `bs`
and the content `cs` of the result array after the read-backs. The shipped
program fixes `n = 100 * 1000 * 1000`. -/
def main {F : Type} (tc : Toolchain) (api : Driver) (ops : FloatOps F) (n : Nat)
    (as bs cs : Nat → F) : Run Int := do
  if !api.oclInit then
    raise "Can't init OpenCL driver!"
  else
    let _device ← chooseDevice tc.file api.enumeration
    raii tc api .context 42 api.createContext do
      OCL_SAFE_CALL api.createContext tc.file 129
      raii tc api .commandQueue 50 api.createCommandQueue do
        OCL_SAFE_CALL api.createCommandQueue tc.file 136
        emit (.out "Data generated for n=")
        emit (.outNum n)
        emit (.out "!")
        emit .endl
        let bufSize := (n * 4) % 2 ^ tc.sizeBits
        raii tc api .aBuf 58 (api.createBuffer .aBuf bufSize) do
          OCL_SAFE_CALL (api.createBuffer .aBuf bufSize) tc.file 164
          raii tc api .bBuf 58 (api.createBuffer .bBuf bufSize) do
            OCL_SAFE_CALL (api.createBuffer .bBuf bufSize) tc.file 172
            raii tc api .cBuf 58 (api.createBuffer .cBuf bufSize) do
              OCL_SAFE_CALL (api.createBuffer .cBuf bufSize) tc.file 180
              programStep tc api ops n bufSize as bs cs

/-- Element count of the shipped program. -/
def shippedN : Nat := 100 * 1000 * 1000

/-! ## IEEE-754 binary32, used to run the verification on concrete floats

A `float` is its 32-bit pattern: sign bit, 8 exponent bits, 23 fraction bits.
Every finite value is an integer multiple of `2 ^ (-149)`. -/

namespace Binary32

/-- Sign bit. -/
def sign (x : Nat) : Nat := x / 2 ^ 31 % 2

/-- Biased exponent field. -/
def expo (x : Nat) : Nat := x / 2 ^ 23 % 256

/-- Fraction field. -/
def frac (x : Nat) : Nat := x % 2 ^ 23

/-- Not-a-number patterns. -/
def isNaN (x : Nat) : Bool := expo x == 255 && frac x != 0

/-- The two infinities. -/
def isInf (x : Nat) : Bool := expo x == 255 && frac x == 0

/-- Magnitude of a finite value in units of `2 ^ (-149)`. -/
def mag (x : Nat) : Nat :=
  if expo x = 0 then frac x else (2 ^ 23 + frac x) * 2 ^ (expo x - 1)

/-- Finite value in units of `2 ^ (-149)`. -/
def toInt (x : Nat) : Int := if sign x = 1 then -(mag x : Int) else (mag x : Int)

/-- Default quiet NaN. -/
def quietNaN : Nat := 0x7FC00000

/-- Floor of the binary logarithm, with `fuel` bounding the number of halvings. -/
def ilog2 : Nat → Nat → Nat
  | 0, _ => 0
  | fuel + 1, a => if a < 2 then 0 else ilog2 fuel (a / 2) + 1

/-- Pattern (sign bit clear) of the magnitude `a * 2 ^ (-149)` rounded to
nearest, ties to even, overflowing to infinity. -/
def roundMag (a : Nat) : Nat :=
  if a < 2 ^ 24 then a
  else
    let shift := ilog2 300 a - 23
    let q := a / 2 ^ shift
    let r := a % 2 ^ shift
    let q := if 2 ^ shift < 2 * r ∨ (2 * r = 2 ^ shift ∧ q % 2 = 1) then q + 1 else q
    min (shift * 2 ^ 23 + q) 0x7F800000

/-- Single-precision `x + y`, round to nearest even. -/
def add (x y : Nat) : Nat :=
  if isNaN x || isNaN y then quietNaN
  else if isInf x then (if isInf y && sign x != sign y then quietNaN else x)
  else if isInf y then y
  else
    let s := toInt x + toInt y
    if s = 0 then (if sign x = 1 ∧ sign y = 1 then 2 ^ 31 else 0)
    else if s < 0 then 2 ^ 31 + roundMag s.natAbs
    else roundMag s.natAbs

/-- Single-precision `x != y`: true when either side is a NaN, false for equal
patterns and for two zeros of either sign. -/
def ne (x y : Nat) : Bool :=
  isNaN x || isNaN y || !(x == y || (x % 2 ^ 31 == 0 && y % 2 ^ 31 == 0))

/-- The `float` operations of the verification loop on bit patterns. -/
def ops : FloatOps Nat := ⟨add, ne⟩

/-- Array with the given elements, read as zero past its end. -/
def array (xs : List Nat) : Nat → Nat := fun i => xs.getD i 0

/-- Host array `[1.0, 2.0, 3.0, 4.0]`. -/
def scenarioA : Nat → Nat := array [0x3F800000, 0x40000000, 0x40400000, 0x40800000]

/-- Host array `[4.0, 3.0, 2.0, 1.0]`. -/
def scenarioB : Nat → Nat := array [0x40800000, 0x40400000, 0x40000000, 0x3F800000]

/-- Result array `[5.0, 5.0, 5.0, 5.0]`. -/
def scenarioC : Nat → Nat := array [0x40A00000, 0x40A00000, 0x40A00000, 0x40A00000]

/-- Result array `[5.0, 5.0, 5.0, 6.0]`, wrong in its last element. -/
def scenarioWrong : Nat → Nat := array [0x40A00000, 0x40A00000, 0x40A00000, 0x40C00000]

end Binary32

/-! ## Vocabulary for statements about `chooseDevice` -/

/-- Device of GPU type: its reported type is `CL_DEVICE_TYPE_GPU`, the test of
the `switch` in `chooseDevice`. -/
def isGPU (d : Device) : Bool := d.deviceType == CL_DEVICE_TYPE_GPU

/-- Device of CPU type: its reported type is `CL_DEVICE_TYPE_CPU`. -/
def isCPU (d : Device) : Bool := d.deviceType == CL_DEVICE_TYPE_CPU

/-- Devices of an enumeration in traversal order: platform by platform, device
by device. -/
def Enumeration.devices (e : Enumeration) : List Device :=
  e.platforms.flatMap (fun p => p.devices)

/-- Every query on the platform and its devices reports `CL_SUCCESS`. -/
def Platform.allSucceed (p : Platform) : Prop :=
  p.countStatus = CL_SUCCESS ∧ p.listStatus = CL_SUCCESS ∧
    ∀ d ∈ p.devices, d.infoStatus = CL_SUCCESS

/-- Every API query of the enumeration reports `CL_SUCCESS`. -/
def Enumeration.allSucceed (e : Enumeration) : Prop :=
  e.countStatus = CL_SUCCESS ∧ e.listStatus = CL_SUCCESS ∧
    ∀ p ∈ e.platforms, p.allSucceed

/-- Value of `cpuDevice` after a pass over `ds` that started with `cpuDevice`
and met no GPU. -/
def lastCPU (cpuDevice : Nat) (ds : List Device) : Nat :=
  ds.foldl (fun c d => if isCPU d then d.handle else c) cpuDevice

/-- Devices up to and including the first GPU, all of them when there is none. -/
def examined (ds : List Device) : List Device :=
  ds.takeWhile (fun d => !isGPU d) ++ (ds.find? isGPU).toList

/-- How a pass over `ds` ends when every query succeeds. -/
def flowOf (cpuDevice : Nat) (ds : List Device) : Flow :=
  match ds.find? isGPU with
  | some g => .returned g.handle
  | none => .next (lastCPU cpuDevice ds)

/-- Events of examining the devices `ds` in order. -/
def queries (ds : List Device) : List Ev :=
  ds.map (fun d => Ev.getDeviceInfo d.handle)

/-- Enumeration of two platforms: a CPU and an accelerator, then a CPU and two
GPUs. -/
def sampleEnumeration : Enumeration :=
  ⟨0, 0, [⟨0, 0, [⟨11, 0, 2⟩, ⟨12, 0, 8⟩]⟩, ⟨0, 0, [⟨21, 0, 2⟩, ⟨22, 0, 4⟩, ⟨23, 0, 4⟩]⟩]⟩

/-- Enumeration of two platforms holding two CPUs and an accelerator. -/
def cpuOnlyEnumeration : Enumeration :=
  ⟨0, 0, [⟨0, 0, [⟨11, 0, 2⟩, ⟨12, 0, 8⟩]⟩, ⟨0, 0, [⟨21, 0, 2⟩]⟩]⟩


instance (p : Platform) : Decidable p.allSucceed := by
  unfold Platform.allSucceed
  infer_instance

instance (e : Enumeration) : Decidable e.allSucceed := by
  unfold Enumeration.allSucceed
  infer_instance

/-- Enumeration holding a single accelerator. -/
def noDeviceEnumeration : Enumeration :=
  ⟨0, 0, [⟨0, 0, [⟨12, 0, 8⟩]⟩]⟩


/-! ## Vocabulary for statements about `main` -/

/-- Every call of a run of `main` with element count `n` reports success: the
driver initialises, a device is chosen, the kernel source is not empty, and each
OpenCL call made before the verification returns `CL_SUCCESS` on the arguments
the run passes. -/
def Driver.succeedsFor (api : Driver) (tc : Toolchain) (n : Nat) : Prop :=
  api.oclInit = true ∧
  (∃ device, (chooseDevice tc.file api.enumeration).result = .ok device) ∧
  api.createContext = CL_SUCCESS ∧
  api.createCommandQueue = CL_SUCCESS ∧
  api.createBuffer .aBuf (n * 4 % 2 ^ tc.sizeBits) = CL_SUCCESS ∧
  api.createBuffer .bBuf (n * 4 % 2 ^ tc.sizeBits) = CL_SUCCESS ∧
  api.createBuffer .cBuf (n * 4 % 2 ^ tc.sizeBits) = CL_SUCCESS ∧
  api.kernelSources.isEmpty = false ∧
  api.createProgram = CL_SUCCESS ∧
  api.buildProgram = CL_SUCCESS ∧
  api.createKernel = CL_SUCCESS ∧
  (∀ i, i < 4 → api.setKernelArg i = CL_SUCCESS) ∧
  (∀ i, i < 20 → api.enqueueNDRange i (globalWorkSize tc.sizeBits n) 128 = CL_SUCCESS) ∧
  (∀ i, i < 20 → api.waitKernel i = CL_SUCCESS) ∧
  (∀ i, i < 20 → api.enqueueRead i (n * 4 % 2 ^ tc.sizeBits) = CL_SUCCESS) ∧
  (∀ i, i < 20 → api.waitRead i = CL_SUCCESS)

/-- Objects whose creation the trace records, in order. -/
def createdIn (trace : List Ev) : List Res :=
  trace.filterMap (fun e => match e with
    | .create r => some r
    | _ => none)

/-- Objects whose release call the trace records, in order. -/
def releasedIn (trace : List Ev) : List Res :=
  trace.filterMap (fun e => match e with
    | .release r => some r
    | _ => none)

/-- A 64-bit target whose compiler expands `__LINE__` of a multi-line macro call
to the line of the macro name. -/
def sampleToolchain : Toolchain := ⟨"src/main.cpp", 64, 260, 303⟩

/-- Runtime with one GPU on which every call succeeds, whatever its arguments. -/
def okDriver : Driver where
  oclInit := true
  enumeration := ⟨0, 0, [⟨0, 0, [⟨22, 0, 4⟩]⟩]⟩
  createContext := 0
  createCommandQueue := 0
  createBuffer := fun _ _ => 0
  kernelSources := "__kernel void aplusb() {}"
  createProgram := 0
  buildProgram := 0
  buildLogSizeStatus := 0
  buildLogSize := 0
  buildLogStatus := 0
  buildLog := []
  createKernel := 0
  setKernelArg := fun _ => 0
  enqueueNDRange := fun _ _ _ => 0
  waitKernel := fun _ => 0
  enqueueRead := fun _ _ => 0
  waitRead := fun _ => 0
  release := fun _ => 0
  kernelLapAvg := 1
  kernelLapStd := 0
  readLapAvg := 1
  readLapStd := 0

/-- Runtime like `okDriver` that follows the OpenCL 1.2 rules for zero sizes:
`clCreateBuffer` returns `CL_INVALID_BUFFER_SIZE` for a size of 0 bytes and
`clEnqueueNDRangeKernel` returns `CL_INVALID_GLOBAL_WORK_SIZE` for a global work
size of 0. -/
def strictDriver : Driver :=
  { okDriver with
    createBuffer := fun _ size => if size = 0 then CL_INVALID_BUFFER_SIZE else CL_SUCCESS
    enqueueNDRange := fun _ globalWorkSize _ =>
      if globalWorkSize = 0 then CL_INVALID_GLOBAL_WORK_SIZE else CL_SUCCESS }

/-- Runtime like `okDriver` on which `clBuildProgram` returns
`CL_BUILD_PROGRAM_FAILURE` (`-11`) and reports a log of 9 characters. -/
def buildFailDriver : Driver :=
  { okDriver with
    buildProgram := -11
    buildLogSize := 9
    buildLog := "bad code".toList ++ [Char.ofNat 0] }


/-- The seven objects held by wrappers, in order of declaration. -/
def wrapped : List Res :=
  [.context, .commandQueue, .aBuf, .bBuf, .cBuf, .program, .kernel]


/-- Accounting of the wrapped objects in a trace, `declared` being the wrappers
that may be declared while the trace is produced: a wrapped object outside
`declared` is neither created nor released, and every wrapped object is created
at most as often as it is released, and released at most once. -/
def Balanced (declared : List Res) (trace : List Ev) : Prop :=
  ∀ r ∈ wrapped,
    (r ∉ declared → trace.count (.create r) = 0 ∧ trace.count (.release r) = 0) ∧
    trace.count (.create r) ≤ trace.count (.release r) ∧
    trace.count (.release r) ≤ 1


/-! ## Basic facts about runs -/

@[simp]
theorem bind_eq_andThen {α β : Type} (m : Run α) (f : α → Run β) :
    (m >>= f) = andThen m f := rfl

@[simp]
theorem pure_eq_ret {α : Type} (a : α) : (pure a : Run α) = ret a := rfl

@[simp]
theorem ret_andThen {α β : Type} (a : α) (f : α → Run β) : andThen (ret a) f = f a := by
  cases h : f a
  simp [andThen, ret, h]

@[simp]
theorem raise_andThen {α β : Type} (msg : String) (f : α → Run β) :
    andThen (raise msg) f = raise msg := rfl

theorem emit_andThen {β : Type} (e : Ev) (f : Unit → Run β) :
    andThen (emit e) f = ⟨e :: (f ()).trace, (f ()).result⟩ := rfl

@[simp]
theorem ret_trace {α : Type} (a : α) : (ret a).trace = [] := rfl
@[simp]
theorem ret_result {α : Type} (a : α) : (ret a).result = .ok a := rfl
@[simp]
theorem raise_trace {α : Type} (msg : String) : (raise msg : Run α).trace = [] := rfl
@[simp]
theorem raise_result {α : Type} (msg : String) :
    (raise msg : Run α).result = .error msg := rfl

@[simp]
theorem reportError_success (file : String) (line : Int) (b : Bool) :
    reportError CL_SUCCESS file line b = ret () := by
  simp [reportError]

@[simp]
theorem OCL_SAFE_CALL_success (file : String) (line : Int) :
    OCL_SAFE_CALL CL_SUCCESS file line = ret () := by
  simp [OCL_SAFE_CALL]

theorem OCL_SAFE_CALL_failure (err : Int) (file : String) (line : Int) (h : err ≠ CL_SUCCESS) :
    OCL_SAFE_CALL err file line =
      raise ("OpenCL error code " ++ toString err ++ " encountered at " ++ file ++ ":"
        ++ toString line) := by
  have h1 : ¬ CL_SUCCESS = err := fun h2 => h h2.symm
  simp [OCL_SAFE_CALL, reportError, h1]

/-- A run that completed a sequence completed both of its parts. -/
theorem andThen_ok {α β : Type} (m : Run α) (f : α → Run β) (b : β)
    (h : (andThen m f).result = .ok b) : ∃ a, m.result = .ok a ∧ (f a).result = .ok b := by
  unfold andThen at h
  cases hm : m.result with
  | error msg => simp [hm] at h
  | ok a => exact ⟨a, rfl, by simpa [hm] using h⟩

/-! ## Launch grid (C1) -/

theorem sub_one_mod (s M : Nat) (h1 : 1 ≤ s) (h2 : s ≤ M) : (s + (M - 1)) % M = s - 1 := by
  have h3 : s + (M - 1) = (s - 1) + M := by omega
  rw [h3, Nat.add_mod_right, Nat.mod_eq_of_lt (by omega)]

theorem globalWorkSize_eq (sizeBits n : Nat) (hbits : 33 ≤ sizeBits) (hn : n < 2 ^ 32) :
    globalWorkSize sizeBits n = (n + 128 - 1) / 128 * 128 := by
  have hpow : 2 ^ 33 ≤ 2 ^ sizeBits := Nat.pow_le_pow_right (by decide) hbits
  have h33 : (2 : Nat) ^ 33 = 8589934592 := by norm_num
  have h32 : (2 : Nat) ^ 32 = 4294967296 := by norm_num
  rw [h33] at hpow
  rw [h32] at hn
  unfold globalWorkSize roundUp
  generalize 2 ^ sizeBits = M at hpow
  simp only
  rw [Nat.mod_eq_of_lt (show n < M by omega), Nat.mod_eq_of_lt (show 128 < M by omega),
    Nat.mod_eq_of_lt (show n + 128 < M by omega), sub_one_mod _ _ (by omega) (by omega)]
  apply Nat.mod_eq_of_lt
  have := Nat.div_mul_le_self (n + 128 - 1) 128
  omega

/-- C1: for a `size_t` wider than 32 bits and every 32-bit element count `n`, the
global work size equals the unwrapped `(n + 128 - 1) / 128 * 128`, is divisible by
128, is at least `n`, is below `n + 128`, and is the least multiple of 128 that is
at least `n`. -/
theorem globalWorkSize_smallest_multiple (sizeBits n : Nat) (hbits : 33 ≤ sizeBits)
    (hn : n < 2 ^ 32) :
    globalWorkSize sizeBits n = (n + 128 - 1) / 128 * 128 ∧
    128 ∣ globalWorkSize sizeBits n ∧
    n ≤ globalWorkSize sizeBits n ∧
    globalWorkSize sizeBits n < n + 128 ∧
    ∀ m, 128 ∣ m → n ≤ m → globalWorkSize sizeBits n ≤ m := by
  rw [globalWorkSize_eq sizeBits n hbits hn]
  refine ⟨rfl, Nat.dvd_mul_left _ _, by omega, by omega, ?_⟩
  rintro m ⟨k, rfl⟩ hk
  omega

/-- The shipped element count on a 64-bit target. -/
theorem globalWorkSize_smallest_multiple_witness :
    globalWorkSize 64 shippedN = (shippedN + 128 - 1) / 128 * 128 ∧
    128 ∣ globalWorkSize 64 shippedN ∧
    shippedN ≤ globalWorkSize 64 shippedN ∧
    globalWorkSize 64 shippedN < shippedN + 128 ∧
    ∀ m, 128 ∣ m → shippedN ≤ m → globalWorkSize 64 shippedN ≤ m :=
  globalWorkSize_smallest_multiple 64 shippedN (by decide) (by decide)

/-- With a 32-bit `size_t` the sum `n + 128` wraps for the largest element
count and the computed global work size is 0. -/
theorem globalWorkSize_wraps_on_32_bits : globalWorkSize 32 (2 ^ 32 - 1) = 0 := by
  decide

/-! ## `reportError` (C4, C6) -/

/-- C4: with `throwError = true`, `reportError` returns silently for
`CL_SUCCESS` and otherwise raises, with no output, exactly the message
`OpenCL error code <err> encountered at <file>:<line>`; it raises if and only if
`err` differs from `CL_SUCCESS`; `OCL_SAFE_CALL` is this call; for instance code
`-61` at `main.cpp:164` gives `OpenCL error code -61 encountered at main.cpp:164`. -/
theorem reportError_throw_iff :
    (∀ (err : Int) (file : String) (line : Int),
      reportError err file line true =
        if err = CL_SUCCESS then ⟨[], .ok ()⟩
        else ⟨[], .error ("OpenCL error code " ++ toString err ++ " encountered at " ++ file
          ++ ":" ++ toString line)⟩) ∧
    (∀ (err : Int) (file : String) (line : Int),
      (∃ msg, (reportError err file line true).result = .error msg) ↔ err ≠ CL_SUCCESS) ∧
    (∀ (err : Int) (file : String) (line : Int),
      OCL_SAFE_CALL err file line = reportError err file line true) ∧
    reportError (-61) "main.cpp" 164 true =
      ⟨[], .error "OpenCL error code -61 encountered at main.cpp:164"⟩ := by
  refine ⟨?_, ?_, fun _ _ _ => rfl, by decide⟩
  · intro err file line
    by_cases h : err = CL_SUCCESS
    · subst h; simp [ret]
    · have h1 : ¬ CL_SUCCESS = err := fun h2 => h h2.symm
      simp [reportError, h, h1, raise]
  · intro err file line
    by_cases h : err = CL_SUCCESS
    · subst h; simp
    · have h1 : ¬ CL_SUCCESS = err := fun h2 => h h2.symm
      simp [reportError, h, h1]

/-- C6: with `throwError = false`, `reportError` never raises: it does nothing
for `CL_SUCCESS` and otherwise only writes the message to the console. Hence the
destructor of every wrapper completes normally whatever the release call
returns, and leaving a wrapper's scope keeps the outcome (value or error) of the
scope's body. -/
theorem reportError_no_throw :
    (∀ (err : Int) (file : String) (line : Int),
      reportError err file line false =
        if err = CL_SUCCESS then ⟨[], .ok ()⟩
        else ⟨[.out ("OpenCL error code " ++ toString err ++ " encountered at " ++ file
          ++ ":" ++ toString line)], .ok ()⟩) ∧
    (∀ (tc : Toolchain) (api : Driver) (r : Res) (dtorLine : Int),
      (destructor tc api r dtorLine).result = .ok ()) ∧
    (∀ (tc : Toolchain) (api : Driver) (r : Res) (dtorLine : Int) (status : Int)
        (rest : Run Int),
      (raii tc api r dtorLine status rest).result = rest.result) := by
  have key : ∀ (err : Int) (file : String) (line : Int),
      reportError err file line false =
        if err = CL_SUCCESS then ⟨[], .ok ()⟩
        else ⟨[.out ("OpenCL error code " ++ toString err ++ " encountered at " ++ file
          ++ ":" ++ toString line)], .ok ()⟩ := by
    intro err file line
    by_cases h : err = CL_SUCCESS
    · subst h; simp [ret]
    · have h1 : ¬ CL_SUCCESS = err := fun h2 => h h2.symm
      simp [reportError, h, h1, emit]
  refine ⟨key, ?_, ?_⟩
  · intro tc api r dtorLine
    simp only [destructor, bind_eq_andThen, emit_andThen, key]
    split <;> rfl
  · intro tc api r dtorLine status rest
    simp only [raii, finally_, bind_eq_andThen]
    split
    · rfl
    · simp

/-! ## Throughput (C7) -/

/-- C7: the value printed after `GFlops: ` is one tenth of `n / t / 10 ^ 9` for
every `n` and `t`; for the shipped `n = 10 ^ 8` and `t = 1` second the program
prints `1 / 100` where the gigaflop count is `1 / 10`. -/
theorem gflops_is_tenth :
    (∀ (n : Nat) (t : ℚ), gflops n t = (n : ℚ) / t / 10 ^ 9 / 10) ∧
    gflops shippedN 1 = 1 / 100 ∧
    ((shippedN : ℚ) / 1 / 10 ^ 9 = 1 / 10) ∧
    gflops shippedN 1 ≠ (shippedN : ℚ) / 1 / 10 ^ 9 := by
  have h : ∀ (n : Nat) (t : ℚ), gflops n t = (n : ℚ) / t / 10 ^ 9 / 10 := by
    intro n t
    unfold gflops
    rw [div_div, div_div, div_div]
    congr 1
    ring
  refine ⟨h, ?_, ?_, ?_⟩
  · rw [h]; norm_num [shippedN]
  · norm_num [shippedN]
  · rw [h]; norm_num [shippedN]


/-! ## Verification loop -/

theorem verifyLoop_pass {F : Type} (ops : FloatOps F) (as bs cs : Nat → F) (count i : Nat)
    (h : ∀ j, j < count → ops.ne (cs (i + j)) (ops.add (as (i + j)) (bs (i + j))) = false) :
    verifyLoop ops as bs cs count i = ret () := by
  induction count generalizing i with
  | zero => rfl
  | succ k ih =>
    have h0 := h 0 (Nat.succ_pos k)
    simp only [Nat.add_zero] at h0
    simp only [verifyLoop, h0]
    apply ih
    intro j hj
    have := h (j + 1) (Nat.succ_lt_succ hj)
    rwa [show i + (j + 1) = i + 1 + j by omega] at this

theorem verifyLoop_fail {F : Type} (ops : FloatOps F) (as bs cs : Nat → F) (count i : Nat)
    (h : ∃ j, j < count ∧ ops.ne (cs (i + j)) (ops.add (as (i + j)) (bs (i + j))) = true) :
    verifyLoop ops as bs cs count i = raise "CPU and GPU results differ!" := by
  induction count generalizing i with
  | zero => obtain ⟨j, hj, _⟩ := h; omega
  | succ k ih =>
    by_cases h0 : ops.ne (cs i) (ops.add (as i) (bs i)) = true
    · simp only [verifyLoop, h0, if_true]
    · simp only [verifyLoop, h0]
      apply ih
      obtain ⟨j, hj, hne⟩ := h
      cases j with
      | zero => exact absurd hne h0
      | succ j =>
        refine ⟨j, Nat.lt_of_succ_lt_succ hj, ?_⟩
        rwa [show i + (j + 1) = i + 1 + j by omega] at hne

theorem verify_eq {F : Type} (ops : FloatOps F) (as bs cs : Nat → F) (n : Nat) :
    ((∀ i, i < n → ops.ne (cs i) (ops.add (as i) (bs i)) = false) ∧
        verify ops as bs cs n = ret ()) ∨
    ((∃ i, i < n ∧ ops.ne (cs i) (ops.add (as i) (bs i)) = true) ∧
        verify ops as bs cs n = raise "CPU and GPU results differ!") := by
  by_cases h : ∃ i, i < n ∧ ops.ne (cs i) (ops.add (as i) (bs i)) = true
  · right
    refine ⟨h, verifyLoop_fail ops as bs cs n 0 ?_⟩
    simpa using h
  · left
    have h2 : ∀ i, i < n → ops.ne (cs i) (ops.add (as i) (bs i)) = false := by
      intro i hi
      by_contra hne
      exact h ⟨i, hi, by simpa using hne⟩
    refine ⟨h2, verifyLoop_pass ops as bs cs n 0 ?_⟩
    simpa using h2

theorem raii_result {α : Type} (tc : Toolchain) (api : Driver) (r : Res) (dtorLine : Int)
    (status : Int) (rest : Run α) : (raii tc api r dtorLine status rest).result = rest.result := by
  simp only [raii, finally_, bind_eq_andThen]
  split
  · rfl
  · simp

theorem verifyAndReturn_ok {F : Type} (ops : FloatOps F) (as bs cs : Nat → F) (n : Nat) (v : Int)
    (h : (verifyAndReturn ops as bs cs n).result = .ok v) :
    v = 0 ∧ ∀ i, i < n → ops.ne (cs i) (ops.add (as i) (bs i)) = false := by
  unfold verifyAndReturn at h
  rcases verify_eq ops as bs cs n with ⟨hall, hv⟩ | ⟨_, hv⟩
  · rw [hv] at h
    simp at h
    exact ⟨h.symm, hall⟩
  · rw [hv] at h
    simp at h

/-! ## What a returning run of `main` went through -/

theorem buildStep_failure (tc : Toolchain) (api : Driver)
    (hfail : api.buildProgram ≠ CL_SUCCESS) :
    (api.buildLogSizeStatus = CL_SUCCESS → api.buildLogStatus = CL_SUCCESS →
      buildStep tc api =
        ⟨if 1 < api.buildLogSize then
            [.out "Program build log:", .endl,
              .out (printedLog api.buildLog api.buildLogSize), .endl]
          else [.out "Program build failed with no logs", .endl],
          .error ("OpenCL error code " ++ toString api.buildProgram ++ " encountered at "
            ++ tc.file ++ ":" ++ toString (228 : Int))⟩) ∧
    (api.buildLogSizeStatus ≠ CL_SUCCESS →
      buildStep tc api =
        ⟨[], .error ("OpenCL error code " ++ toString api.buildLogSizeStatus
          ++ " encountered at " ++ tc.file ++ ":" ++ toString (218 : Int))⟩) ∧
    (api.buildLogSizeStatus = CL_SUCCESS → api.buildLogStatus ≠ CL_SUCCESS →
      buildStep tc api =
        ⟨[], .error ("OpenCL error code " ++ toString api.buildLogStatus
          ++ " encountered at " ++ tc.file ++ ":" ++ toString (220 : Int))⟩) := by
  refine ⟨?_, ?_, ?_⟩
  · intro h1 h2
    simp only [buildStep, bind_eq_andThen, hfail, h1, h2, ne_eq, not_false_eq_true, if_true,
      OCL_SAFE_CALL_success, ret_andThen, OCL_SAFE_CALL_failure _ _ _ hfail]
    by_cases hs : 1 < api.buildLogSize
    · simp [hs, andThen, emit, raise, gt_iff_lt]
    · simp [hs, andThen, emit, raise, gt_iff_lt]
  · intro h1
    simp only [buildStep, bind_eq_andThen, hfail, ne_eq, not_false_eq_true, if_true,
      OCL_SAFE_CALL_failure _ _ _ h1, raise_andThen]
    rfl
  · intro h1 h2
    simp only [buildStep, bind_eq_andThen, hfail, h1, ne_eq, not_false_eq_true, if_true,
      OCL_SAFE_CALL_success, ret_andThen, OCL_SAFE_CALL_failure _ _ _ h2, raise_andThen]
    rfl

theorem buildStep_not_ok (tc : Toolchain) (api : Driver)
    (hfail : api.buildProgram ≠ CL_SUCCESS) (a : Unit) : (buildStep tc api).result ≠ .ok a := by
  intro h
  obtain ⟨h1, h2, h3⟩ := buildStep_failure tc api hfail
  by_cases hs : api.buildLogSizeStatus = CL_SUCCESS
  · by_cases hl : api.buildLogStatus = CL_SUCCESS
    · rw [h1 hs hl] at h
      cases h
    · rw [h3 hs hl] at h
      cases h
  · rw [h2 hs] at h
    cases h


theorem OCL_SAFE_CALL_ok (err : Int) (file : String) (line : Int) (u : Unit)
    (h : (OCL_SAFE_CALL err file line).result = .ok u) : err = CL_SUCCESS := by
  by_contra hne
  rw [OCL_SAFE_CALL_failure _ _ _ hne] at h
  cases h

theorem andThen_OCL_ok {β : Type} (err : Int) (file : String) (line : Int)
    (g : Unit → Run β) (v : β) (h : (andThen (OCL_SAFE_CALL err file line) g).result = .ok v) :
    err = CL_SUCCESS ∧ (g ()).result = .ok v := by
  obtain ⟨u, h1, h2⟩ := andThen_ok _ _ _ h
  exact ⟨OCL_SAFE_CALL_ok _ _ _ u h1, h2⟩

theorem kernelLaps_ok_inv (tc : Toolchain) (api : Driver) (g w count i : Nat)
    (h : (kernelLaps tc api g w count i).result = .ok ()) :
    ∀ j, i ≤ j → j < i + count →
      api.enqueueNDRange j g w = CL_SUCCESS ∧ api.waitKernel j = CL_SUCCESS := by
  induction count generalizing i with
  | zero => intro j h1 h2; omega
  | succ k ih =>
    simp only [kernelLaps, bind_eq_andThen] at h
    split at h
    · next hs =>
      obtain ⟨_, h⟩ := andThen_OCL_ok _ _ _ _ _ ((andThen_ok _ _ _ h).choose_spec.2)
      obtain ⟨h2, h⟩ := andThen_OCL_ok _ _ _ _ _ h
      intro j hj1 hj2
      by_cases hji : j = i
      · subst hji; exact ⟨hs, h2⟩
      · exact ih (i + 1) h j (by omega) (by omega)
    · next hs =>
      obtain ⟨h1, _⟩ := andThen_OCL_ok _ _ _ _ _ ((andThen_ok _ _ _ h).choose_spec.2)
      exact absurd h1 hs

theorem readLaps_ok_inv (tc : Toolchain) (api : Driver) (size count i : Nat)
    (h : (readLaps tc api size count i).result = .ok ()) :
    ∀ j, i ≤ j → j < i + count →
      api.enqueueRead j size = CL_SUCCESS ∧ api.waitRead j = CL_SUCCESS := by
  induction count generalizing i with
  | zero => intro j h1 h2; omega
  | succ k ih =>
    simp only [readLaps, bind_eq_andThen] at h
    split at h
    · next hs =>
      obtain ⟨_, h⟩ := andThen_OCL_ok _ _ _ _ _ ((andThen_ok _ _ _ h).choose_spec.2)
      obtain ⟨h2, h⟩ := andThen_OCL_ok _ _ _ _ _ h
      intro j hj1 hj2
      by_cases hji : j = i
      · subst hji; exact ⟨hs, h2⟩
      · exact ih (i + 1) h j (by omega) (by omega)
    · next hs =>
      obtain ⟨h1, _⟩ := andThen_OCL_ok _ _ _ _ _ ((andThen_ok _ _ _ h).choose_spec.2)
      exact absurd h1 hs

theorem dispatchStep_ok {F : Type} (tc : Toolchain) (api : Driver) (ops : FloatOps F)
    (n bufSize : Nat) (as bs cs : Nat → F) (v : Int)
    (h : (dispatchStep tc api ops n bufSize as bs cs).result = .ok v) :
    (∀ i, i < 4 → api.setKernelArg i = CL_SUCCESS) ∧
    (∀ i, i < 20 → api.enqueueNDRange i (globalWorkSize tc.sizeBits n) 128 = CL_SUCCESS) ∧
    (∀ i, i < 20 → api.waitKernel i = CL_SUCCESS) ∧
    (∀ i, i < 20 → api.enqueueRead i bufSize = CL_SUCCESS) ∧
    (∀ i, i < 20 → api.waitRead i = CL_SUCCESS) ∧
    (verifyAndReturn ops as bs cs n).result = .ok v := by
  unfold dispatchStep at h
  simp only [bind_eq_andThen] at h
  obtain ⟨h0, h⟩ := andThen_OCL_ok _ _ _ _ _ h
  obtain ⟨h1, h⟩ := andThen_OCL_ok _ _ _ _ _ h
  obtain ⟨h2, h⟩ := andThen_OCL_ok _ _ _ _ _ h
  obtain ⟨h3, h⟩ := andThen_OCL_ok _ _ _ _ _ h
  obtain ⟨_, hk, h⟩ := andThen_ok _ _ _ h
  iterate 13 (replace h := (andThen_ok _ _ _ h).choose_spec.2)
  obtain ⟨_, hr, h⟩ := andThen_ok _ _ _ h
  iterate 10 (replace h := (andThen_ok _ _ _ h).choose_spec.2)
  have hk2 := kernelLaps_ok_inv tc api _ _ 20 0 hk
  have hr2 := readLaps_ok_inv tc api _ 20 0 hr
  refine ⟨?_, fun i hi => (hk2 i (by omega) (by omega)).1,
    fun i hi => (hk2 i (by omega) (by omega)).2, fun i hi => (hr2 i (by omega) (by omega)).1,
    fun i hi => (hr2 i (by omega) (by omega)).2, h⟩
  intro i hi
  have : i = 0 ∨ i = 1 ∨ i = 2 ∨ i = 3 := by omega
  rcases this with rfl | rfl | rfl | rfl <;> assumption

theorem main_ok {F : Type} (tc : Toolchain) (api : Driver) (ops : FloatOps F) (n : Nat)
    (as bs cs : Nat → F) (v : Int) (h : (main tc api ops n as bs cs).result = .ok v) :
    api.succeedsFor tc n ∧ (verifyAndReturn ops as bs cs n).result = .ok v := by
  unfold main at h
  split at h
  · simp at h
  · next hinit =>
    simp only [bind_eq_andThen] at h
    obtain ⟨device, hdev, h⟩ := andThen_ok _ _ _ h
    rw [raii_result] at h
    obtain ⟨hctx, h⟩ := andThen_OCL_ok _ _ _ _ _ h
    rw [raii_result] at h
    obtain ⟨hq, h⟩ := andThen_OCL_ok _ _ _ _ _ h
    iterate 4 (replace h := (andThen_ok _ _ _ h).choose_spec.2)
    rw [raii_result] at h
    obtain ⟨ha, h⟩ := andThen_OCL_ok _ _ _ _ _ h
    rw [raii_result] at h
    obtain ⟨hb, h⟩ := andThen_OCL_ok _ _ _ _ _ h
    rw [raii_result] at h
    obtain ⟨hc, h⟩ := andThen_OCL_ok _ _ _ _ _ h
    unfold programStep at h
    dsimp only at h
    split at h
    · simp at h
    · next hsrc =>
      rw [raii_result] at h
      simp only [bind_eq_andThen] at h
      obtain ⟨hprog, h⟩ := andThen_OCL_ok _ _ _ _ _ h
      obtain ⟨_, hbuild, h⟩ := andThen_ok _ _ _ h
      rw [raii_result] at h
      obtain ⟨hker, h⟩ := andThen_OCL_ok _ _ _ _ _ h
      obtain ⟨harg, henq, hwait, hread, hwr, hver⟩ := dispatchStep_ok tc api ops n _ as bs cs v h
      have hbuild2 : api.buildProgram = CL_SUCCESS := by
        by_contra hne
        exact buildStep_not_ok tc api hne _ hbuild
      exact ⟨⟨by simpa using hinit, ⟨device, hdev⟩, hctx, hq, ha, hb, hc, by simpa using hsrc,
        hprog, hbuild2, hker, harg, henq, hwait, hread, hwr⟩, hver⟩

/-! ## Verifier (C3) -/

set_option maxRecDepth 100000 in
/-- C3: for every implementation of single-precision `+` and `!=`, the
verification loop raises `CPU and GPU results differ!` if and only if some
`i < n` has `cs[i] != as[i] + bs[i]`, and completes if and only if there is none;
it writes nothing; `main` returns a value only if that value is `0` and
`cs[i] != as[i] + bs[i]` is false for every `i < n`. On IEEE-754 binary32 the
arrays `[1.0, 2.0, 3.0, 4.0]`, `[4.0, 3.0, 2.0, 1.0]` and result
`[5.0, 5.0, 5.0, 5.0]` pass, and result `[5.0, 5.0, 5.0, 6.0]` raises. -/
theorem verify_raises_iff_mismatch :
    (∀ (F : Type) (ops : FloatOps F) (as bs cs : Nat → F) (n : Nat),
      ((verify ops as bs cs n).result = .error "CPU and GPU results differ!" ↔
        ∃ i, i < n ∧ ops.ne (cs i) (ops.add (as i) (bs i)) = true) ∧
      ((verify ops as bs cs n).result = .ok () ↔
        ∀ i, i < n → ops.ne (cs i) (ops.add (as i) (bs i)) = false) ∧
      (verify ops as bs cs n).trace = []) ∧
    (∀ (F : Type) (tc : Toolchain) (api : Driver) (ops : FloatOps F) (n : Nat)
        (as bs cs : Nat → F) (v : Int),
      (main tc api ops n as bs cs).result = .ok v →
        v = 0 ∧ ∀ i, i < n → ops.ne (cs i) (ops.add (as i) (bs i)) = false) ∧
    verify Binary32.ops Binary32.scenarioA Binary32.scenarioB Binary32.scenarioC 4 =
      ⟨[], .ok ()⟩ ∧
    verify Binary32.ops Binary32.scenarioA Binary32.scenarioB Binary32.scenarioWrong 4 =
      ⟨[], .error "CPU and GPU results differ!"⟩ := by
  refine ⟨?_, ?_, by decide, by decide⟩
  · intro F ops as bs cs n
    rcases verify_eq ops as bs cs n with ⟨hall, hv⟩ | ⟨hex, hv⟩
    · rw [hv]
      refine ⟨⟨fun h => ?_, fun h => ?_⟩, ⟨fun _ => hall, fun _ => rfl⟩, rfl⟩
      · cases h
      · obtain ⟨i, hi, hne⟩ := h
        rw [hall i hi] at hne
        cases hne
    · rw [hv]
      refine ⟨⟨fun _ => hex, fun _ => rfl⟩, ⟨fun h => ?_, fun h => ?_⟩, rfl⟩
      · cases h
      · obtain ⟨i, hi, hne⟩ := hex
        rw [h i hi] at hne
        cases hne
  · intro F tc api ops n as bs cs v h
    exact verifyAndReturn_ok ops as bs cs n v (main_ok tc api ops n as bs cs v h).2


/-! ## `chooseDevice` (C2, C10) -/

theorem deviceLoop_ok (file : String) (ds : List Device) (cpuDevice : Nat)
    (h : ∀ d ∈ ds, d.infoStatus = CL_SUCCESS) :
    deviceLoop file ds cpuDevice = ⟨queries (examined ds), .ok (flowOf cpuDevice ds)⟩ := by
  induction ds generalizing cpuDevice with
  | nil => rfl
  | cons d rest ih =>
    have hd : d.infoStatus = CL_SUCCESS := h d (List.mem_cons_self _ _)
    have hrest : ∀ x ∈ rest, x.infoStatus = CL_SUCCESS :=
      fun x hx => h x (List.mem_cons_of_mem _ hx)
    simp only [deviceLoop, bind_eq_andThen, hd, OCL_SAFE_CALL_success, ret_andThen, emit_andThen]
    by_cases hc : d.deviceType = CL_DEVICE_TYPE_CPU
    · have hg : isGPU d = false := by simp [isGPU, hc, CL_DEVICE_TYPE_CPU, CL_DEVICE_TYPE_GPU]
      have hcpu : isCPU d = true := by simp [isCPU, hc]
      simp [hc, ih _ hrest, examined, flowOf, queries, lastCPU, hg, hcpu, List.find?_cons,
        List.takeWhile_cons]
    · by_cases hg : d.deviceType = CL_DEVICE_TYPE_GPU
      · have hg2 : isGPU d = true := by simp [isGPU, hg]
        have hne : ¬ CL_DEVICE_TYPE_GPU = CL_DEVICE_TYPE_CPU := by decide
        simp [hg, hne, examined, flowOf, queries, hg2, List.find?_cons, List.takeWhile_cons, ret]
      · have hg2 : isGPU d = false := by simp [isGPU, hg]
        have hcpu : isCPU d = false := by simp [isCPU, hc]
        simp [hc, hg, ih _ hrest, examined, flowOf, queries, lastCPU, hg2, hcpu,
          List.find?_cons, List.takeWhile_cons]

theorem examined_append (l₁ l₂ : List Device) :
    examined (l₁ ++ l₂) =
      match l₁.find? isGPU with
      | some _ => examined l₁
      | none => l₁ ++ examined l₂ := by
  induction l₁ with
  | nil => simp [examined]
  | cons d rest ih =>
    by_cases hg : isGPU d = true
    · simp [examined, List.find?_cons, List.takeWhile_cons, hg]
    · have hg2 : isGPU d = false := by simpa using hg
      simp only [examined, List.cons_append, List.find?_cons, hg2, List.takeWhile_cons,
        Bool.not_false, if_true] at ih ⊢
      cases hf : rest.find? isGPU with
      | some g => simp [hf] at ih ⊢; exact ih
      | none => simp [hf] at ih ⊢; exact ih

theorem flowOf_append (cpuDevice : Nat) (l₁ l₂ : List Device) :
    flowOf cpuDevice (l₁ ++ l₂) =
      match flowOf cpuDevice l₁ with
      | .returned device => .returned device
      | .next cpu => flowOf cpu l₂ := by
  unfold flowOf
  rw [List.find?_append]
  cases hf : l₁.find? isGPU with
  | some g => simp
  | none => simp [lastCPU, List.foldl_append]

theorem platformLoop_ok (file : String) (ps : List Platform) (cpuDevice : Nat)
    (h : ∀ p ∈ ps, p.allSucceed) :
    platformLoop file ps cpuDevice =
      ⟨queries (examined (ps.flatMap (fun p => p.devices))),
        .ok (flowOf cpuDevice (ps.flatMap (fun p => p.devices)))⟩ := by
  induction ps generalizing cpuDevice with
  | nil => rfl
  | cons p rest ih =>
    obtain ⟨hc, hl, hd⟩ := h p (List.mem_cons_self _ _)
    have hrest : ∀ x ∈ rest, x.allSucceed := fun x hx => h x (List.mem_cons_of_mem _ hx)
    rw [List.flatMap_cons]
    simp only [platformLoop, bind_eq_andThen, hc, hl, OCL_SAFE_CALL_success, ret_andThen,
      deviceLoop_ok file p.devices cpuDevice hd]
    rw [examined_append, flowOf_append]
    cases hf : p.devices.find? isGPU with
    | some g =>
      have hflow : flowOf cpuDevice p.devices = .returned g.handle := by simp [flowOf, hf]
      simp [hflow, andThen, ret]
    | none =>
      have hflow : flowOf cpuDevice p.devices = .next (lastCPU cpuDevice p.devices) := by
        simp [flowOf, hf]
      have hex : examined p.devices = p.devices := by
        have := examined_append p.devices []
        simpa [hf, examined] using this
      simp only [hflow, andThen, ih _ hrest, hex, queries, List.map_append]

theorem chooseDevice_ok (file : String) (e : Enumeration) (h : e.allSucceed) :
    chooseDevice file e =
      ⟨queries (examined e.devices),
        match e.devices.find? isGPU with
        | some g => .ok g.handle
        | none =>
          if lastCPU 0 e.devices = 0 then
            .error "Unable to find neither a GPU nor a CPU device"
          else .ok (lastCPU 0 e.devices)⟩ := by
  obtain ⟨hc, hl, hp⟩ := h
  simp only [chooseDevice, bind_eq_andThen, hc, hl, OCL_SAFE_CALL_success, ret_andThen,
    platformLoop_ok file e.platforms 0 hp, Enumeration.devices]
  generalize e.platforms.flatMap (fun p => p.devices) = ds
  cases hf : ds.find? isGPU with
  | some g => simp [flowOf, hf, andThen, ret]
  | none =>
    by_cases h0 : lastCPU 0 ds = 0
    · simp [flowOf, hf, andThen, h0, raise]
    · simp [flowOf, hf, andThen, h0, ret]

theorem lastCPU_eq (cpuDevice : Nat) (ds : List Device) :
    lastCPU cpuDevice ds =
      match ds.reverse.find? isCPU with
      | some c => c.handle
      | none => cpuDevice := by
  induction ds generalizing cpuDevice with
  | nil => rfl
  | cons d rest ih =>
    simp only [lastCPU, List.foldl_cons, List.reverse_cons, List.find?_append] at ih ⊢
    rw [ih]
    cases hf : rest.reverse.find? isCPU with
    | some c => simp
    | none =>
      by_cases hc : isCPU d = true
      · simp [hc, List.find?_cons]
      · have hc2 : isCPU d = false := by simpa using hc
        simp [hc2, List.find?_cons]


/-- C2: when every query of the enumeration succeeds, `chooseDevice` returns a
device of GPU type if the enumeration holds one, whatever CPU devices it holds;
returns a device of CPU type if it holds CPU devices (with non-null handles) and
no GPU; and raises `Unable to find neither a GPU nor a CPU device` if it holds
neither. A device is of GPU (CPU) type when its reported type equals
`CL_DEVICE_TYPE_GPU` (`CL_DEVICE_TYPE_CPU`). -/
theorem chooseDevice_by_type (file : String) (e : Enumeration) (hok : e.allSucceed) :
    ((∃ d ∈ e.devices, isGPU d = true) →
      ∃ d ∈ e.devices, isGPU d = true ∧ (chooseDevice file e).result = .ok d.handle) ∧
    ((∀ d ∈ e.devices, isGPU d = false) → (∃ d ∈ e.devices, isCPU d = true) →
      (∀ d ∈ e.devices, isCPU d = true → d.handle ≠ 0) →
      ∃ d ∈ e.devices, isCPU d = true ∧ (chooseDevice file e).result = .ok d.handle) ∧
    ((∀ d ∈ e.devices, isGPU d = false ∧ isCPU d = false) →
      (chooseDevice file e).result =
        .error "Unable to find neither a GPU nor a CPU device") := by
  rw [chooseDevice_ok file e hok]
  refine ⟨?_, ?_, ?_⟩
  · rintro ⟨d, hd, hg⟩
    cases hf : e.devices.find? isGPU with
    | none =>
      have := List.find?_eq_none.mp hf d hd
      exact absurd hg this
    | some g =>
      exact ⟨g, List.mem_of_find?_eq_some hf, List.find?_some hf, rfl⟩
  · rintro hno ⟨d, hd, hc⟩ hnn
    have hf : e.devices.find? isGPU = none := by
      apply List.find?_eq_none.mpr
      intro x hx
      simp [hno x hx]
    simp only [hf, lastCPU_eq]
    cases hr : e.devices.reverse.find? isCPU with
    | none =>
      have := List.find?_eq_none.mp hr d (List.mem_reverse.mpr hd)
      exact absurd hc this
    | some c =>
      have hmem : c ∈ e.devices := List.mem_reverse.mp (List.mem_of_find?_eq_some hr)
      have hcpu : isCPU c = true := List.find?_some hr
      exact ⟨c, hmem, hcpu, by simp [hnn c hmem hcpu]⟩
  · intro hnone
    have hf : e.devices.find? isGPU = none := by
      apply List.find?_eq_none.mpr
      intro x hx
      simp [(hnone x hx).1]
    have hr : e.devices.reverse.find? isCPU = none := by
      apply List.find?_eq_none.mpr
      intro x hx
      simp [(hnone x (List.mem_reverse.mp hx)).2]
    simp [hf, lastCPU_eq, hr]

/-- A GPU among CPUs is chosen, a CPU is chosen when there is no GPU, and an
enumeration holding only an accelerator is refused. -/
theorem chooseDevice_by_type_witness :
    sampleEnumeration.allSucceed ∧
    (∃ d ∈ sampleEnumeration.devices, isGPU d = true ∧
      (chooseDevice "main.cpp" sampleEnumeration).result = .ok d.handle) ∧
    cpuOnlyEnumeration.allSucceed ∧
    (∃ d ∈ cpuOnlyEnumeration.devices, isCPU d = true ∧
      (chooseDevice "main.cpp" cpuOnlyEnumeration).result = .ok d.handle) ∧
    noDeviceEnumeration.allSucceed ∧
    (chooseDevice "main.cpp" noDeviceEnumeration).result =
      .error "Unable to find neither a GPU nor a CPU device" :=
  ⟨by decide,
    (chooseDevice_by_type "main.cpp" sampleEnumeration (by decide)).1
      ⟨⟨22, 0, 4⟩, by decide, by decide⟩,
    by decide,
    (chooseDevice_by_type "main.cpp" cpuOnlyEnumeration (by decide)).2.1
      (by decide) ⟨⟨11, 0, 2⟩, by decide, by decide⟩ (by decide),
    by decide,
    (chooseDevice_by_type "main.cpp" noDeviceEnumeration (by decide)).2.2 (by decide)⟩

/-- C10: when every query of the enumeration succeeds, with the devices taken
platform by platform and device by device: if `g` is the first device of GPU
type, `chooseDevice` returns `g` after examining exactly the devices before `g`
and `g` itself; if there is no GPU, it examines every device and returns the
last device of CPU type (its handle being non-null), or raises when there is no
CPU either. -/
theorem chooseDevice_policy (file : String) (e : Enumeration) (hok : e.allSucceed) :
    (∀ g, e.devices.find? isGPU = some g →
      (chooseDevice file e).result = .ok g.handle ∧
      (chooseDevice file e).trace =
        queries (e.devices.takeWhile (fun d => !isGPU d) ++ [g])) ∧
    (e.devices.find? isGPU = none →
      (chooseDevice file e).trace = queries e.devices ∧
      (∀ c, e.devices.reverse.find? isCPU = some c → c.handle ≠ 0 →
        (chooseDevice file e).result = .ok c.handle) ∧
      (e.devices.reverse.find? isCPU = none →
        (chooseDevice file e).result =
          .error "Unable to find neither a GPU nor a CPU device")) := by
  rw [chooseDevice_ok file e hok]
  refine ⟨?_, ?_⟩
  · intro g hf
    simp [hf, examined]
  · intro hf
    have hex : examined e.devices = e.devices := by
      have := examined_append e.devices []
      simpa [hf, examined] using this
    refine ⟨by rw [hex], ?_, ?_⟩
    · intro c hr hnn
      simp [hf, lastCPU_eq, hr, hnn]
    · intro hr
      simp [hf, lastCPU_eq, hr]

/-- The first of two GPUs is returned after four devices were examined; without a
GPU the last of two CPUs is returned. -/
theorem chooseDevice_policy_witness :
    sampleEnumeration.allSucceed ∧
    sampleEnumeration.devices.find? isGPU = some ⟨22, 0, 4⟩ ∧
    (chooseDevice "main.cpp" sampleEnumeration).result = .ok 22 ∧
    (chooseDevice "main.cpp" sampleEnumeration).trace =
      [.getDeviceInfo 11, .getDeviceInfo 12, .getDeviceInfo 21, .getDeviceInfo 22] ∧
    cpuOnlyEnumeration.allSucceed ∧
    cpuOnlyEnumeration.devices.reverse.find? isCPU = some ⟨21, 0, 2⟩ ∧
    (chooseDevice "main.cpp" cpuOnlyEnumeration).result = .ok 21 :=
  ⟨by decide, by decide,
    ((chooseDevice_policy "main.cpp" sampleEnumeration (by decide)).1 ⟨22, 0, 4⟩
      (by decide)).1,
    ((chooseDevice_policy "main.cpp" sampleEnumeration (by decide)).1 ⟨22, 0, 4⟩
      (by decide)).2,
    by decide, by decide,
    ((chooseDevice_policy "main.cpp" cpuOnlyEnumeration (by decide)).2 (by decide)).2.1
      ⟨21, 0, 2⟩ (by decide) (by decide)⟩


/-! ## Events of a run, step by step -/

theorem all_andThen {α β : Type} (P : Ev → Prop) (m : Run α) (f : α → Run β)
    (hm : ∀ e ∈ m.trace, P e) (hf : ∀ a, m.result = .ok a → ∀ e ∈ (f a).trace, P e) :
    ∀ e ∈ (andThen m f).trace, P e := by
  intro e he
  unfold andThen at he
  cases hr : m.result with
  | error msg =>
    simp only [hr] at he
    exact hm e he
  | ok a =>
    simp only [hr, List.mem_append] at he
    rcases he with he | he
    · exact hm e he
    · exact hf a hr e he

theorem all_emit (P : Ev → Prop) (x : Ev) (hx : P x) : ∀ e ∈ (emit x).trace, P e := by
  intro e he
  simp only [emit, List.mem_singleton] at he
  rw [he]
  exact hx

theorem all_ret {α : Type} (P : Ev → Prop) (a : α) : ∀ e ∈ (ret a).trace, P e := by
  intro e he
  simp at he

theorem all_raise {α : Type} (P : Ev → Prop) (msg : String) :
    ∀ e ∈ (raise msg : Run α).trace, P e := by
  intro e he
  simp at he

theorem OCL_SAFE_CALL_trace (err : Int) (file : String) (line : Int) :
    (OCL_SAFE_CALL err file line).trace = [] := by
  unfold OCL_SAFE_CALL reportError
  split
  · rfl
  · rfl

theorem all_OCL_SAFE_CALL (P : Ev → Prop) (err : Int) (file : String) (line : Int) :
    ∀ e ∈ (OCL_SAFE_CALL err file line).trace, P e := by
  intro e he
  simp [OCL_SAFE_CALL_trace] at he

theorem all_destructor (P : Ev → Prop) (tc : Toolchain) (api : Driver) (r : Res)
    (dtorLine : Int) (hrel : P (.release r)) (hout : ∀ s, P (.out s)) :
    ∀ e ∈ (destructor tc api r dtorLine).trace, P e := by
  unfold destructor
  simp only [bind_eq_andThen]
  apply all_andThen _ _ _ (all_emit P _ hrel)
  intro _ _
  unfold reportError
  split
  · exact all_ret P _
  · exact all_emit P _ (hout _)

theorem all_raii {α : Type} (P : Ev → Prop) (tc : Toolchain) (api : Driver) (r : Res)
    (dtorLine : Int) (status : Int) (rest : Run α) (hcre : P (.create r))
    (hrel : P (.release r)) (hout : ∀ s, P (.out s)) (hrest : ∀ e ∈ rest.trace, P e) :
    ∀ e ∈ (raii tc api r dtorLine status rest).trace, P e := by
  intro e he
  simp only [raii, finally_, bind_eq_andThen, List.mem_append] at he
  rcases he with he | he
  · revert e
    split
    · exact all_andThen _ _ _ (all_emit P _ hcre) (fun _ _ => hrest)
    · exact all_andThen _ _ _ (all_ret P _) (fun _ _ => hrest)
  · exact all_destructor P tc api r dtorLine hrel hout e he

theorem all_deviceLoop (P : Ev → Prop) (file : String) (ds : List Device) (cpuDevice : Nat)
    (hq : ∀ d, P (.getDeviceInfo d)) : ∀ e ∈ (deviceLoop file ds cpuDevice).trace, P e := by
  induction ds generalizing cpuDevice with
  | nil => exact all_ret P _
  | cons d rest ih =>
    simp only [deviceLoop, bind_eq_andThen]
    apply all_andThen _ _ _ (all_emit P _ (hq _))
    intro _ _
    apply all_andThen _ _ _ (all_OCL_SAFE_CALL P _ _ _)
    intro _ _
    split
    · exact ih _
    · split
      · exact all_ret P _
      · exact ih _

theorem all_platformLoop (P : Ev → Prop) (file : String) (ps : List Platform) (cpuDevice : Nat)
    (hq : ∀ d, P (.getDeviceInfo d)) : ∀ e ∈ (platformLoop file ps cpuDevice).trace, P e := by
  induction ps generalizing cpuDevice with
  | nil => exact all_ret P _
  | cons p rest ih =>
    simp only [platformLoop, bind_eq_andThen]
    apply all_andThen _ _ _ (all_OCL_SAFE_CALL P _ _ _)
    intro _ _
    apply all_andThen _ _ _ (all_OCL_SAFE_CALL P _ _ _)
    intro _ _
    apply all_andThen _ _ _ (all_deviceLoop P _ _ _ hq)
    intro flow _
    cases flow with
    | returned device => exact all_ret P _
    | next cpu => exact ih _

theorem all_chooseDevice (P : Ev → Prop) (file : String) (en : Enumeration)
    (hq : ∀ d, P (.getDeviceInfo d)) : ∀ e ∈ (chooseDevice file en).trace, P e := by
  simp only [chooseDevice, bind_eq_andThen]
  apply all_andThen _ _ _ (all_OCL_SAFE_CALL P _ _ _)
  intro _ _
  apply all_andThen _ _ _ (all_OCL_SAFE_CALL P _ _ _)
  intro _ _
  apply all_andThen _ _ _ (all_platformLoop P _ _ _ hq)
  intro flow _
  cases flow with
  | returned device => exact all_ret P _
  | next cpu =>
    dsimp only
    split
    · exact all_raise P _
    · exact all_ret P _

/-! ## Build step (C9) -/

theorem printedLog_full (text : List Char) (h : ∀ c ∈ text, c ≠ Char.ofNat 0) :
    printedLog (text ++ [Char.ofNat 0]) (text.length + 1) = String.mk text := by
  unfold printedLog
  have htake : (text ++ [Char.ofNat 0]).take (text.length + 1) = text ++ [Char.ofNat 0] := by
    apply List.take_of_length_le
    simp
  rw [htake]
  congr 1
  clear htake
  induction text with
  | nil => simp
  | cons c rest ih =>
    have hc : c ≠ Char.ofNat 0 := h c (List.mem_cons_self _ _)
    simp only [List.cons_append, List.takeWhile_cons, hc, ne_eq, not_false_eq_true,
      decide_True, if_true]
    rw [ih (fun x hx => h x (List.mem_cons_of_mem _ hx))]

theorem all_buildStep (P : Ev → Prop) (tc : Toolchain) (api : Driver)
    (hout : ∀ s, P (.out s)) (hendl : P .endl) : ∀ e ∈ (buildStep tc api).trace, P e := by
  unfold buildStep
  simp only [bind_eq_andThen]
  split
  · apply all_andThen _ _ _ (all_OCL_SAFE_CALL P _ _ _)
    intro _ _
    apply all_andThen _ _ _ (all_OCL_SAFE_CALL P _ _ _)
    intro _ _
    split
    · apply all_andThen _ _ _ (all_emit P _ (hout _))
      intro _ _
      apply all_andThen _ _ _ (all_emit P _ hendl)
      intro _ _
      apply all_andThen _ _ _ (all_emit P _ (hout _))
      intro _ _
      apply all_andThen _ _ _ (all_emit P _ hendl)
      intro _ _
      exact all_OCL_SAFE_CALL P _ _ _
    · apply all_andThen _ _ _ (all_emit P _ (hout _))
      intro _ _
      apply all_andThen _ _ _ (all_emit P _ hendl)
      intro _ _
      exact all_OCL_SAFE_CALL P _ _ _
  · apply all_andThen _ _ _ (all_ret P _)
    intro _ _
    exact all_OCL_SAFE_CALL P _ _ _

theorem main_events_of_build_failure {F : Type} (P : Ev → Prop) (tc : Toolchain)
    (api : Driver) (ops : FloatOps F) (n : Nat) (as bs cs : Nat → F)
    (hfail : api.buildProgram ≠ CL_SUCCESS)
    (hq : ∀ d, P (.getDeviceInfo d)) (hout : ∀ s, P (.out s)) (hnum : ∀ q, P (.outNum q))
    (hendl : P .endl)
    (hres : ∀ r ∈ [Res.context, .commandQueue, .aBuf, .bBuf, .cBuf, .program],
      P (.create r) ∧ P (.release r)) :
    ∀ e ∈ (main tc api ops n as bs cs).trace, P e := by
  have hc : ∀ r ∈ [Res.context, .commandQueue, .aBuf, .bBuf, .cBuf, .program],
      P (.create r) := fun r hr => (hres r hr).1
  have hr : ∀ r ∈ [Res.context, .commandQueue, .aBuf, .bBuf, .cBuf, .program],
      P (.release r) := fun r hr => (hres r hr).2
  unfold main
  split
  · exact all_raise P _
  · simp only [bind_eq_andThen]
    apply all_andThen P _ _ (all_chooseDevice P _ _ hq)
    intro _ _
    apply all_raii P _ _ _ _ _ _ (hc _ (by simp)) (hr _ (by simp)) hout
    apply all_andThen P _ _ (all_OCL_SAFE_CALL P _ _ _)
    intro _ _
    apply all_raii P _ _ _ _ _ _ (hc _ (by simp)) (hr _ (by simp)) hout
    apply all_andThen P _ _ (all_OCL_SAFE_CALL P _ _ _)
    intro _ _
    apply all_andThen P _ _ (all_emit P _ (hout _))
    intro _ _
    apply all_andThen P _ _ (all_emit P _ (hnum _))
    intro _ _
    apply all_andThen P _ _ (all_emit P _ (hout _))
    intro _ _
    apply all_andThen P _ _ (all_emit P _ hendl)
    intro _ _
    apply all_raii P _ _ _ _ _ _ (hc _ (by simp)) (hr _ (by simp)) hout
    apply all_andThen P _ _ (all_OCL_SAFE_CALL P _ _ _)
    intro _ _
    apply all_raii P _ _ _ _ _ _ (hc _ (by simp)) (hr _ (by simp)) hout
    apply all_andThen P _ _ (all_OCL_SAFE_CALL P _ _ _)
    intro _ _
    apply all_raii P _ _ _ _ _ _ (hc _ (by simp)) (hr _ (by simp)) hout
    apply all_andThen P _ _ (all_OCL_SAFE_CALL P _ _ _)
    intro _ _
    unfold programStep
    dsimp only
    split
    · exact all_raise P _
    · apply all_raii P _ _ _ _ _ _ (hc _ (by simp)) (hr _ (by simp)) hout
      simp only [bind_eq_andThen]
      apply all_andThen P _ _ (all_OCL_SAFE_CALL P _ _ _)
      intro _ _
      apply all_andThen P _ _ (all_buildStep P _ _ hout hendl)
      intro a ha
      exact absurd ha (buildStep_not_ok tc api hfail a)

theorem main_no_kernel_of_build_failure {F : Type} (tc : Toolchain) (api : Driver)
    (ops : FloatOps F) (n : Nat) (as bs cs : Nat → F)
    (hfail : api.buildProgram ≠ CL_SUCCESS) :
    ∀ e ∈ (main tc api ops n as bs cs).trace, e ≠ .create .kernel ∧ e ≠ .release .kernel := by
  apply main_events_of_build_failure
    (fun e => e ≠ .create .kernel ∧ e ≠ .release .kernel) tc api ops n as bs cs hfail
  · intro d; simp
  · intro s; simp
  · intro q; simp
  · simp
  · intro r hr
    simp only [List.mem_cons, List.mem_singleton, List.not_mem_nil, or_false] at hr
    rcases hr with rfl | rfl | rfl | rfl | rfl | rfl <;> simp

/-- C9: when `clBuildProgram` returns a non-success status: if both build-log
queries succeed, the build step writes `Program build log:` and the log when the
reported size exceeds 1, or `Program build failed with no logs` otherwise, and
then raises the error carrying the build status at line 228; if the size query
fails its status is raised at line 218 with nothing written; if the log query
fails its status is raised at line 220 with nothing written. The text written
for a log made of `text` and its terminating zero, with the size reported
accordingly, is `text` in full. In every such run of `main` the kernel is neither
created nor released and `main` returns no value. -/
theorem build_failure_surfaces_log (tc : Toolchain) (api : Driver)
    (hfail : api.buildProgram ≠ CL_SUCCESS) :
    (api.buildLogSizeStatus = CL_SUCCESS → api.buildLogStatus = CL_SUCCESS →
      buildStep tc api =
        ⟨if 1 < api.buildLogSize then
            [.out "Program build log:", .endl,
              .out (printedLog api.buildLog api.buildLogSize), .endl]
          else [.out "Program build failed with no logs", .endl],
          .error ("OpenCL error code " ++ toString api.buildProgram ++ " encountered at "
            ++ tc.file ++ ":" ++ toString (228 : Int))⟩) ∧
    (api.buildLogSizeStatus ≠ CL_SUCCESS →
      buildStep tc api =
        ⟨[], .error ("OpenCL error code " ++ toString api.buildLogSizeStatus
          ++ " encountered at " ++ tc.file ++ ":" ++ toString (218 : Int))⟩) ∧
    (api.buildLogSizeStatus = CL_SUCCESS → api.buildLogStatus ≠ CL_SUCCESS →
      buildStep tc api =
        ⟨[], .error ("OpenCL error code " ++ toString api.buildLogStatus
          ++ " encountered at " ++ tc.file ++ ":" ++ toString (220 : Int))⟩) ∧
    (∀ text : List Char, (∀ c ∈ text, c ≠ Char.ofNat 0) →
      printedLog (text ++ [Char.ofNat 0]) (text.length + 1) = String.mk text) ∧
    (∀ (F : Type) (ops : FloatOps F) (n : Nat) (as bs cs : Nat → F),
      (∀ e ∈ (main tc api ops n as bs cs).trace,
        e ≠ .create .kernel ∧ e ≠ .release .kernel) ∧
      ∀ v, (main tc api ops n as bs cs).result ≠ .ok v) := by
  obtain ⟨h1, h2, h3⟩ := buildStep_failure tc api hfail
  refine ⟨h1, h2, h3, printedLog_full, ?_⟩
  intro F ops n as bs cs
  refine ⟨main_no_kernel_of_build_failure tc api ops n as bs cs hfail, ?_⟩
  intro v hv
  exact hfail (main_ok tc api ops n as bs cs v hv).1.2.2.2.2.2.2.2.2.2.1


/-- A build failing with status `-11` and a nine-character log. -/
theorem build_failure_surfaces_log_witness :
    buildFailDriver.buildProgram ≠ CL_SUCCESS ∧
    buildStep sampleToolchain buildFailDriver =
      ⟨[.out "Program build log:", .endl, .out "bad code", .endl],
        .error "OpenCL error code -11 encountered at src/main.cpp:228"⟩ :=
  ⟨by decide,
    (build_failure_surfaces_log sampleToolchain buildFailDriver (by decide)).1 rfl rfl⟩

/-! ## Runs in which every call succeeds -/

theorem andThen_result_of_ok {α β : Type} (m : Run α) (f : α → Run β) (a : α)
    (h : m.result = .ok a) : (andThen m f).result = (f a).result := by
  simp [andThen, h]

theorem emit_andThen_result {β : Type} (e : Ev) (f : Unit → Run β) :
    (andThen (emit e) f).result = (f ()).result := rfl

theorem kernelLaps_result (tc : Toolchain) (api : Driver) (g w count i : Nat)
    (h1 : ∀ j, j < i + count → api.enqueueNDRange j g w = CL_SUCCESS)
    (h2 : ∀ j, j < i + count → api.waitKernel j = CL_SUCCESS) :
    (kernelLaps tc api g w count i).result = .ok () := by
  induction count generalizing i with
  | zero => rfl
  | succ k ih =>
    simp only [kernelLaps, bind_eq_andThen, h1 i (by omega), h2 i (by omega), if_true,
      OCL_SAFE_CALL_success, ret_andThen, emit_andThen_result]
    exact ih (i + 1) (fun j hj => h1 j (by omega)) (fun j hj => h2 j (by omega))

theorem readLaps_result (tc : Toolchain) (api : Driver) (size count i : Nat)
    (h1 : ∀ j, j < i + count → api.enqueueRead j size = CL_SUCCESS)
    (h2 : ∀ j, j < i + count → api.waitRead j = CL_SUCCESS) :
    (readLaps tc api size count i).result = .ok () := by
  induction count generalizing i with
  | zero => rfl
  | succ k ih =>
    simp only [readLaps, bind_eq_andThen, h1 i (by omega), h2 i (by omega), if_true,
      OCL_SAFE_CALL_success, ret_andThen, emit_andThen_result]
    exact ih (i + 1) (fun j hj => h1 j (by omega)) (fun j hj => h2 j (by omega))

theorem main_result_of_succeeds {F : Type} (tc : Toolchain) (api : Driver) (ops : FloatOps F)
    (n : Nat) (as bs cs : Nat → F) (h : api.succeedsFor tc n) :
    (main tc api ops n as bs cs).result = (verifyAndReturn ops as bs cs n).result := by
  obtain ⟨hinit, ⟨device, hdev⟩, hctx, hq, ha, hb, hc, hsrc, hprog, hbuild, hker, harg, henq,
    hwait, hread, hwr⟩ := h
  have hk := kernelLaps_result tc api (globalWorkSize tc.sizeBits n) 128 20 0
    (fun j hj => henq j (by omega)) (fun j hj => hwait j (by omega))
  have hr := readLaps_result tc api (n * 4 % 2 ^ tc.sizeBits) 20 0
    (fun j hj => hread j (by omega)) (fun j hj => hwr j (by omega))
  simp only [main, hinit, Bool.not_true, Bool.false_eq_true, if_false, bind_eq_andThen]
  rw [andThen_result_of_ok _ _ device hdev]
  simp only [raii_result, hctx, hq, ha, hb, hc, OCL_SAFE_CALL_success, ret_andThen,
    emit_andThen_result, programStep, hsrc, Bool.false_eq_true, if_false, bind_eq_andThen,
    hprog, buildStep, hbuild, ne_eq, not_true_eq_false, hker, dispatchStep, pure_eq_ret,
    harg 0 (by omega), harg 1 (by omega), harg 2 (by omega), harg 3 (by omega)]
  rw [andThen_result_of_ok _ _ () hk]
  simp only [emit_andThen_result]
  rw [andThen_result_of_ok _ _ () hr]
  simp only [emit_andThen_result]


/-- A run of `main` returns 0 exactly when every call it makes reports success
and no element of the result differs from the host sum. -/
theorem main_returns_iff {F : Type} (tc : Toolchain) (api : Driver) (ops : FloatOps F)
    (n : Nat) (as bs cs : Nat → F) :
    (main tc api ops n as bs cs).result = .ok 0 ↔
      api.succeedsFor tc n ∧ ∀ i, i < n → ops.ne (cs i) (ops.add (as i) (bs i)) = false := by
  constructor
  · intro h
    obtain ⟨hs, hv⟩ := main_ok tc api ops n as bs cs 0 h
    exact ⟨hs, (verifyAndReturn_ok ops as bs cs n 0 hv).2⟩
  · rintro ⟨hs, hall⟩
    rw [main_result_of_succeeds tc api ops n as bs cs hs]
    have hv : verify ops as bs cs n = ret () := by
      apply verifyLoop_pass
      intro j hj
      simpa using hall j hj
    simp [verifyAndReturn, hv]

/-! ## Element count zero (C8) -/

theorem globalWorkSize_zero (sizeBits : Nat) (hbits : 8 ≤ sizeBits) :
    globalWorkSize sizeBits 0 = 0 := by
  have hpow : 2 ^ 8 ≤ 2 ^ sizeBits := Nat.pow_le_pow_right (by decide) hbits
  have h8 : (2 : Nat) ^ 8 = 256 := by norm_num
  rw [h8] at hpow
  unfold globalWorkSize roundUp
  generalize 2 ^ sizeBits = M at hpow
  simp only
  rw [Nat.zero_mod, Nat.zero_add, Nat.mod_eq_of_lt (show 128 < M by omega),
    Nat.mod_eq_of_lt (show 128 < M by omega), sub_one_mod _ _ (by omega) (by omega)]
  simp

/-- C8, as the code has it: with element count 0 the global work size is 0 and
the verification loop runs no iteration; the run returns 0 if and only if every
call reports success on the zero-size arguments it receives; and a run in which
`clCreateBuffer` rejects the zero-byte buffer A ends with that status raised at
line 164. -/
theorem main_zero_elements {F : Type} (tc : Toolchain) (api : Driver) (ops : FloatOps F)
    (as bs cs : Nat → F) (hbits : 8 ≤ tc.sizeBits) :
    globalWorkSize tc.sizeBits 0 = 0 ∧
    verify ops as bs cs 0 = ⟨[], .ok ()⟩ ∧
    ((main tc api ops 0 as bs cs).result = .ok 0 ↔ api.succeedsFor tc 0) ∧
    (api.oclInit = true →
      (∃ device, (chooseDevice tc.file api.enumeration).result = .ok device) →
      api.createContext = CL_SUCCESS → api.createCommandQueue = CL_SUCCESS →
      api.createBuffer .aBuf 0 ≠ CL_SUCCESS →
      (main tc api ops 0 as bs cs).result =
        .error ("OpenCL error code " ++ toString (api.createBuffer .aBuf 0)
          ++ " encountered at " ++ tc.file ++ ":" ++ toString (164 : Int))) := by
  refine ⟨globalWorkSize_zero _ hbits, rfl, ?_, ?_⟩
  · rw [main_returns_iff]
    constructor
    · exact fun h => h.1
    · exact fun h => ⟨h, fun i hi => absurd hi (Nat.not_lt_zero i)⟩
  · rintro hinit ⟨device, hdev⟩ hctx hq ha
    simp only [main, hinit, Bool.not_true, Bool.false_eq_true, if_false, bind_eq_andThen]
    rw [andThen_result_of_ok _ _ device hdev]
    simp only [raii_result, hctx, hq, OCL_SAFE_CALL_success, ret_andThen, emit_andThen_result,
      Nat.zero_mul, Nat.zero_mod, OCL_SAFE_CALL_failure _ _ _ ha, raise_andThen, raise_result]

theorem okDriver_succeedsFor (n : Nat) : okDriver.succeedsFor sampleToolchain n :=
  ⟨rfl, ⟨22, by decide⟩, rfl, rfl, rfl, rfl, rfl, by decide, rfl, rfl, rfl,
    fun _ _ => rfl, fun _ _ => rfl, fun _ _ => rfl, fun _ _ => rfl, fun _ _ => rfl⟩

/-- A runtime that accepts zero sizes lets the run with no element return 0. -/
theorem main_zero_elements_witness :
    globalWorkSize 64 0 = 0 ∧
    okDriver.succeedsFor sampleToolchain 0 ∧
    (main sampleToolchain okDriver Binary32.ops 0 Binary32.scenarioA Binary32.scenarioB
      Binary32.scenarioC).result = .ok 0 :=
  ⟨(main_zero_elements sampleToolchain okDriver Binary32.ops Binary32.scenarioA
      Binary32.scenarioB Binary32.scenarioC (by decide)).1,
    okDriver_succeedsFor 0,
    (main_zero_elements sampleToolchain okDriver Binary32.ops Binary32.scenarioA
      Binary32.scenarioB Binary32.scenarioC (by decide)).2.2.1.mpr (okDriver_succeedsFor 0)⟩

set_option maxRecDepth 100000 in
/-- C8, counterexample: on a runtime that follows the OpenCL rules for zero
sizes, the run with element count 0 computes a global work size of 0 and is
ended by the error `CL_INVALID_BUFFER_SIZE` raised at line 164, although the same
runtime lets the run with the four-element scenario return 0. -/
theorem main_zero_elements_crashes :
    globalWorkSize 64 0 = 0 ∧
    (main sampleToolchain strictDriver Binary32.ops 0 Binary32.scenarioA Binary32.scenarioB
      Binary32.scenarioC).result =
        .error "OpenCL error code -61 encountered at src/main.cpp:164" ∧
    (main sampleToolchain strictDriver Binary32.ops 4 Binary32.scenarioA Binary32.scenarioB
      Binary32.scenarioC).result = .ok 0 := by
  refine ⟨by decide, by decide, by decide⟩

/-! ## Resource release (C5) -/

theorem all_kernelLaps (P : Ev → Prop) (tc : Toolchain) (api : Driver) (g w count i : Nat)
    (hke : ∀ j, P (.create (.kernelEvent j))) :
    ∀ e ∈ (kernelLaps tc api g w count i).trace, P e := by
  induction count generalizing i with
  | zero => exact all_ret P _
  | succ k ih =>
    simp only [kernelLaps, bind_eq_andThen]
    split
    · refine all_andThen P _ _ (all_emit P _ (hke _)) (fun _ _ => ?_)
      refine all_andThen P _ _ (all_OCL_SAFE_CALL P _ _ _) (fun _ _ => ?_)
      refine all_andThen P _ _ (all_OCL_SAFE_CALL P _ _ _) (fun _ _ => ?_)
      exact ih _
    · refine all_andThen P _ _ (all_ret P _) (fun _ _ => ?_)
      refine all_andThen P _ _ (all_OCL_SAFE_CALL P _ _ _) (fun _ _ => ?_)
      refine all_andThen P _ _ (all_OCL_SAFE_CALL P _ _ _) (fun _ _ => ?_)
      exact ih _

theorem all_readLaps (P : Ev → Prop) (tc : Toolchain) (api : Driver) (size count i : Nat)
    (hre : ∀ j, P (.create (.readEvent j))) :
    ∀ e ∈ (readLaps tc api size count i).trace, P e := by
  induction count generalizing i with
  | zero => exact all_ret P _
  | succ k ih =>
    simp only [readLaps, bind_eq_andThen]
    split
    · refine all_andThen P _ _ (all_emit P _ (hre _)) (fun _ _ => ?_)
      refine all_andThen P _ _ (all_OCL_SAFE_CALL P _ _ _) (fun _ _ => ?_)
      refine all_andThen P _ _ (all_OCL_SAFE_CALL P _ _ _) (fun _ _ => ?_)
      exact ih _
    · refine all_andThen P _ _ (all_ret P _) (fun _ _ => ?_)
      refine all_andThen P _ _ (all_OCL_SAFE_CALL P _ _ _) (fun _ _ => ?_)
      refine all_andThen P _ _ (all_OCL_SAFE_CALL P _ _ _) (fun _ _ => ?_)
      exact ih _

theorem verifyLoop_trace {F : Type} (ops : FloatOps F) (as bs cs : Nat → F) (count i : Nat) :
    (verifyLoop ops as bs cs count i).trace = [] := by
  induction count generalizing i with
  | zero => rfl
  | succ k ih =>
    simp only [verifyLoop]
    split
    · rfl
    · exact ih _

theorem all_verifyAndReturn {F : Type} (P : Ev → Prop) (ops : FloatOps F)
    (as bs cs : Nat → F) (n : Nat) : ∀ e ∈ (verifyAndReturn ops as bs cs n).trace, P e := by
  simp only [verifyAndReturn, bind_eq_andThen]
  refine all_andThen P _ _ ?_ (fun _ _ => all_ret P _)
  intro e he
  simp [verify, verifyLoop_trace] at he

theorem all_dispatchStep {F : Type} (P : Ev → Prop) (tc : Toolchain) (api : Driver)
    (ops : FloatOps F) (n bufSize : Nat) (as bs cs : Nat → F)
    (hout : ∀ s, P (.out s)) (hnum : ∀ q, P (.outNum q)) (hendl : P .endl)
    (hke : ∀ j, P (.create (.kernelEvent j))) (hre : ∀ j, P (.create (.readEvent j))) :
    ∀ e ∈ (dispatchStep tc api ops n bufSize as bs cs).trace, P e := by
  simp only [dispatchStep, bind_eq_andThen]
  iterate 4 refine all_andThen P _ _ (all_OCL_SAFE_CALL P _ _ _) (fun _ _ => ?_)
  refine all_andThen P _ _ (all_kernelLaps P _ _ _ _ _ _ hke) (fun _ _ => ?_)
  refine all_andThen P _ _ (all_emit P _ (hout _)) (fun _ _ => ?_)
  refine all_andThen P _ _ (all_emit P _ (hnum _)) (fun _ _ => ?_)
  refine all_andThen P _ _ (all_emit P _ (hout _)) (fun _ _ => ?_)
  refine all_andThen P _ _ (all_emit P _ (hnum _)) (fun _ _ => ?_)
  refine all_andThen P _ _ (all_emit P _ (hout _)) (fun _ _ => ?_)
  refine all_andThen P _ _ (all_emit P _ hendl) (fun _ _ => ?_)
  refine all_andThen P _ _ (all_emit P _ (hout _)) (fun _ _ => ?_)
  refine all_andThen P _ _ (all_emit P _ (hnum _)) (fun _ _ => ?_)
  refine all_andThen P _ _ (all_emit P _ hendl) (fun _ _ => ?_)
  refine all_andThen P _ _ (all_emit P _ (hout _)) (fun _ _ => ?_)
  refine all_andThen P _ _ (all_emit P _ (hnum _)) (fun _ _ => ?_)
  refine all_andThen P _ _ (all_emit P _ (hout _)) (fun _ _ => ?_)
  refine all_andThen P _ _ (all_emit P _ hendl) (fun _ _ => ?_)
  refine all_andThen P _ _ (all_readLaps P _ _ _ _ _ hre) (fun _ _ => ?_)
  refine all_andThen P _ _ (all_emit P _ (hout _)) (fun _ _ => ?_)
  refine all_andThen P _ _ (all_emit P _ (hnum _)) (fun _ _ => ?_)
  refine all_andThen P _ _ (all_emit P _ (hout _)) (fun _ _ => ?_)
  refine all_andThen P _ _ (all_emit P _ (hnum _)) (fun _ _ => ?_)
  refine all_andThen P _ _ (all_emit P _ (hout _)) (fun _ _ => ?_)
  refine all_andThen P _ _ (all_emit P _ hendl) (fun _ _ => ?_)
  refine all_andThen P _ _ (all_emit P _ (hout _)) (fun _ _ => ?_)
  refine all_andThen P _ _ (all_emit P _ (hnum _)) (fun _ _ => ?_)
  refine all_andThen P _ _ (all_emit P _ (hout _)) (fun _ _ => ?_)
  refine all_andThen P _ _ (all_emit P _ hendl) (fun _ _ => ?_)
  exact all_verifyAndReturn P ops as bs cs n

theorem all_programStep {F : Type} (P : Ev → Prop) (tc : Toolchain) (api : Driver)
    (ops : FloatOps F) (n bufSize : Nat) (as bs cs : Nat → F)
    (hout : ∀ s, P (.out s)) (hnum : ∀ q, P (.outNum q)) (hendl : P .endl)
    (hres : ∀ r ∈ [Res.program, .kernel], P (.create r) ∧ P (.release r))
    (hke : ∀ j, P (.create (.kernelEvent j))) (hre : ∀ j, P (.create (.readEvent j))) :
    ∀ e ∈ (programStep tc api ops n bufSize as bs cs).trace, P e := by
  unfold programStep
  dsimp only
  split
  · exact all_raise P _
  · refine all_raii P _ _ _ _ _ _ (hres _ (by simp)).1 (hres _ (by simp)).2 hout ?_
    simp only [bind_eq_andThen]
    refine all_andThen P _ _ (all_OCL_SAFE_CALL P _ _ _) (fun _ _ => ?_)
    refine all_andThen P _ _ (all_buildStep P _ _ hout hendl) (fun _ _ => ?_)
    refine all_raii P _ _ _ _ _ _ (hres _ (by simp)).1 (hres _ (by simp)).2 hout ?_
    refine all_andThen P _ _ (all_OCL_SAFE_CALL P _ _ _) (fun _ _ => ?_)
    exact all_dispatchStep P tc api ops n _ as bs cs hout hnum hendl hke hre

theorem all_main {F : Type} (P : Ev → Prop) (tc : Toolchain) (api : Driver)
    (ops : FloatOps F) (n : Nat) (as bs cs : Nat → F)
    (hq : ∀ d, P (.getDeviceInfo d)) (hout : ∀ s, P (.out s)) (hnum : ∀ q, P (.outNum q))
    (hendl : P .endl)
    (hres : ∀ r ∈ [Res.context, .commandQueue, .aBuf, .bBuf, .cBuf, .program, .kernel],
      P (.create r) ∧ P (.release r))
    (hke : ∀ j, P (.create (.kernelEvent j))) (hre : ∀ j, P (.create (.readEvent j))) :
    ∀ e ∈ (main tc api ops n as bs cs).trace, P e := by
  unfold main
  split
  · exact all_raise P _
  · simp only [bind_eq_andThen]
    refine all_andThen P _ _ (all_chooseDevice P _ _ hq) (fun _ _ => ?_)
    refine all_raii P _ _ _ _ _ _ (hres _ (by simp)).1 (hres _ (by simp)).2 hout ?_
    refine all_andThen P _ _ (all_OCL_SAFE_CALL P _ _ _) (fun _ _ => ?_)
    refine all_raii P _ _ _ _ _ _ (hres _ (by simp)).1 (hres _ (by simp)).2 hout ?_
    refine all_andThen P _ _ (all_OCL_SAFE_CALL P _ _ _) (fun _ _ => ?_)
    refine all_andThen P _ _ (all_emit P _ (hout _)) (fun _ _ => ?_)
    refine all_andThen P _ _ (all_emit P _ (hnum _)) (fun _ _ => ?_)
    refine all_andThen P _ _ (all_emit P _ (hout _)) (fun _ _ => ?_)
    refine all_andThen P _ _ (all_emit P _ hendl) (fun _ _ => ?_)
    refine all_raii P _ _ _ _ _ _ (hres _ (by simp)).1 (hres _ (by simp)).2 hout ?_
    refine all_andThen P _ _ (all_OCL_SAFE_CALL P _ _ _) (fun _ _ => ?_)
    refine all_raii P _ _ _ _ _ _ (hres _ (by simp)).1 (hres _ (by simp)).2 hout ?_
    refine all_andThen P _ _ (all_OCL_SAFE_CALL P _ _ _) (fun _ _ => ?_)
    refine all_raii P _ _ _ _ _ _ (hres _ (by simp)).1 (hres _ (by simp)).2 hout ?_
    refine all_andThen P _ _ (all_OCL_SAFE_CALL P _ _ _) (fun _ _ => ?_)
    exact all_programStep P tc api ops n _ as bs cs hout hnum hendl
      (fun r hr => hres r (by
        simp only [List.mem_cons, List.mem_singleton, List.not_mem_nil, or_false] at hr ⊢
        rcases hr with rfl | rfl <;> simp)) hke hre

theorem main_releases_no_event {F : Type} (tc : Toolchain) (api : Driver)
    (ops : FloatOps F) (n : Nat) (as bs cs : Nat → F) :
    ∀ e ∈ (main tc api ops n as bs cs).trace,
      ∀ i, e ≠ .release (.kernelEvent i) ∧ e ≠ .release (.readEvent i) := by
  apply all_main (fun e => ∀ i, e ≠ .release (.kernelEvent i) ∧ e ≠ .release (.readEvent i))
  · intro d; simp
  · intro s; simp
  · intro q; simp
  · simp
  · intro r hr
    simp only [List.mem_cons, List.mem_singleton, List.not_mem_nil, or_false] at hr
    rcases hr with rfl | rfl | rfl | rfl | rfl | rfl | rfl <;> simp
  · intro j; simp
  · intro j; simp


set_option maxRecDepth 100000 in
/-- C5, where the code departs from it: no run of `main`, whatever the runtime
answers, ever makes a release call for an event object; yet the run in which
every call succeeds (four-element scenario) returns 0 after creating, besides the
seven wrapped objects, the forty event objects returned by the twenty
`clEnqueueNDRangeKernel` and the twenty `clEnqueueReadBuffer` calls, and its only
release calls are those of the seven wrappers, in reverse order of declaration. -/
theorem events_never_released :
    (∀ (F : Type) (tc : Toolchain) (api : Driver) (ops : FloatOps F) (n : Nat)
        (as bs cs : Nat → F),
      ∀ e ∈ (main tc api ops n as bs cs).trace,
        ∀ i, e ≠ .release (.kernelEvent i) ∧ e ≠ .release (.readEvent i)) ∧
    (main sampleToolchain okDriver Binary32.ops 4 Binary32.scenarioA Binary32.scenarioB
      Binary32.scenarioC).result = .ok 0 ∧
    createdIn (main sampleToolchain okDriver Binary32.ops 4 Binary32.scenarioA
      Binary32.scenarioB Binary32.scenarioC).trace =
      [.context, .commandQueue, .aBuf, .bBuf, .cBuf, .program, .kernel]
        ++ (List.range 20).map Res.kernelEvent ++ (List.range 20).map Res.readEvent ∧
    releasedIn (main sampleToolchain okDriver Binary32.ops 4 Binary32.scenarioA
      Binary32.scenarioB Binary32.scenarioC).trace =
      [.kernel, .program, .cBuf, .bBuf, .aBuf, .commandQueue, .context] := by
  refine ⟨?_, by decide, by decide, by decide⟩
  intro F tc api ops n as bs cs
  exact main_releases_no_event tc api ops n as bs cs


/-! ## Wrapped objects are released exactly once -/

theorem andThen_trace {α β : Type} (m : Run α) (f : α → Run β) :
    (andThen m f).trace =
      m.trace ++ (match m.result with
        | .ok a => (f a).trace
        | .error _ => []) := by
  unfold andThen
  cases m.result <;> simp

theorem count_eq_zero_of_all (x : Ev) (t : List Ev) (h : ∀ e ∈ t, e ≠ x) : t.count x = 0 := by
  apply List.count_eq_zero.mpr
  intro hx
  exact h x hx rfl

theorem count_chooseDevice (x : Ev) (file : String) (en : Enumeration)
    (hx : ∀ d, Ev.getDeviceInfo d ≠ x) : (chooseDevice file en).trace.count x = 0 :=
  count_eq_zero_of_all x _ (all_chooseDevice (fun e => e ≠ x) file en hx)

theorem count_buildStep (x : Ev) (tc : Toolchain) (api : Driver)
    (hout : ∀ s, Ev.out s ≠ x) (hendl : Ev.endl ≠ x) : (buildStep tc api).trace.count x = 0 :=
  count_eq_zero_of_all x _ (all_buildStep (fun e => e ≠ x) tc api hout hendl)

theorem count_dispatchStep {F : Type} (x : Ev) (tc : Toolchain) (api : Driver)
    (ops : FloatOps F) (n bufSize : Nat) (as bs cs : Nat → F)
    (hout : ∀ s, Ev.out s ≠ x) (hnum : ∀ q, Ev.outNum q ≠ x) (hendl : Ev.endl ≠ x)
    (hke : ∀ j, Ev.create (.kernelEvent j) ≠ x) (hre : ∀ j, Ev.create (.readEvent j) ≠ x) :
    (dispatchStep tc api ops n bufSize as bs cs).trace.count x = 0 :=
  count_eq_zero_of_all x _
    (all_dispatchStep (fun e => e ≠ x) tc api ops n bufSize as bs cs hout hnum hendl hke hre)

theorem destructor_trace (tc : Toolchain) (api : Driver) (r : Res) (dtorLine : Int) :
    ∃ warning : List String,
      (destructor tc api r dtorLine).trace = .release r :: warning.map Ev.out := by
  unfold destructor reportError
  simp only [bind_eq_andThen, emit_andThen]
  split
  · exact ⟨[], rfl⟩
  · exact ⟨[_], rfl⟩

theorem count_destructor (x : Ev) (tc : Toolchain) (api : Driver) (r : Res) (dtorLine : Int)
    (hout : ∀ s, Ev.out s ≠ x) :
    (destructor tc api r dtorLine).trace.count x = if Ev.release r = x then 1 else 0 := by
  obtain ⟨warning, hw⟩ := destructor_trace tc api r dtorLine
  rw [hw, List.count_cons]
  have h0 : (warning.map Ev.out).count x = 0 := by
    apply count_eq_zero_of_all
    intro e he
    obtain ⟨s, _, rfl⟩ := List.mem_map.mp he
    exact hout s
  simp [h0]

theorem count_raii {α : Type} (x : Ev) (tc : Toolchain) (api : Driver) (r : Res)
    (dtorLine : Int) (status : Int) (rest : Run α) (hout : ∀ s, Ev.out s ≠ x) :
    (raii tc api r dtorLine status rest).trace.count x =
      (if status = CL_SUCCESS ∧ Ev.create r = x then 1 else 0) + rest.trace.count x
        + (if Ev.release r = x then 1 else 0) := by
  simp only [raii, finally_, bind_eq_andThen, List.count_append, count_destructor x _ _ _ _ hout]
  by_cases hs : status = CL_SUCCESS
  · simp only [hs, if_true, true_and, emit_andThen, List.count_cons, beq_iff_eq]
    omega
  · simp [hs]



theorem balanced_of_quiet (declared : List Res) (trace : List Ev)
    (h : ∀ r ∈ wrapped, trace.count (.create r) = 0 ∧ trace.count (.release r) = 0) :
    Balanced declared trace := by
  intro r hr
  obtain ⟨h1, h2⟩ := h r hr
  exact ⟨fun _ => ⟨h1, h2⟩, by omega, by omega⟩

theorem balanced_andThen {α β : Type} (declared : List Res) (m : Run α) (f : α → Run β)
    (hm : ∀ r ∈ wrapped, m.trace.count (.create r) = 0 ∧ m.trace.count (.release r) = 0)
    (hf : ∀ a, Balanced declared (f a).trace) : Balanced declared (andThen m f).trace := by
  intro r hr
  obtain ⟨h1, h2⟩ := hm r hr
  rw [andThen_trace]
  simp only [List.count_append, h1, h2, Nat.zero_add]
  cases m.result with
  | error msg => exact ⟨fun _ => ⟨rfl, rfl⟩, Nat.le_refl _, Nat.zero_le _⟩
  | ok a => exact hf a r hr

theorem balanced_raii {α : Type} (declared : List Res) (tc : Toolchain) (api : Driver)
    (r : Res) (dtorLine : Int) (status : Int) (rest : Run α) (hr : r ∉ declared)
    (hrest : Balanced declared rest.trace) :
    Balanced (r :: declared) (raii tc api r dtorLine status rest).trace := by
  intro x hx
  obtain ⟨h1, h2, h3⟩ := hrest x hx
  rw [count_raii _ _ _ _ _ _ _ (by intro s; simp), count_raii _ _ _ _ _ _ _ (by intro s; simp)]
  by_cases hxr : r = x
  · subst hxr
    obtain ⟨h4, h5⟩ := h1 hr
    simp only [h4, h5, and_true, if_true]
    refine ⟨fun hn => absurd (List.mem_cons_self _ _) hn, ?_, ?_⟩
    · simp only [reduceCtorEq, if_false]
      split <;> omega
    · simp
  · have hc : ¬ Ev.create r = Ev.create x := by simpa using hxr
    have hl : ¬ Ev.release r = Ev.release x := by simpa using hxr
    simp only [hc, hl, and_false, if_false, reduceCtorEq, Nat.zero_add, Nat.add_zero]
    refine ⟨fun hn => h1 (fun hmem => hn (List.mem_cons_of_mem _ hmem)), h2, h3⟩

theorem quiet_OCL_SAFE_CALL (err : Int) (file : String) (line : Int) :
    ∀ r ∈ wrapped, (OCL_SAFE_CALL err file line).trace.count (.create r) = 0 ∧
      (OCL_SAFE_CALL err file line).trace.count (.release r) = 0 := by
  intro r _
  simp [OCL_SAFE_CALL_trace]

theorem quiet_emit (e : Ev) (h : ∀ r, e ≠ .create r ∧ e ≠ .release r) :
    ∀ r ∈ wrapped, (emit e).trace.count (.create r) = 0 ∧
      (emit e).trace.count (.release r) = 0 := by
  intro r _
  have h1 := (h r).1
  have h2 := (h r).2
  simp [emit, List.count_cons, h1, h2]

theorem quiet_chooseDevice (file : String) (en : Enumeration) :
    ∀ r ∈ wrapped, (chooseDevice file en).trace.count (.create r) = 0 ∧
      (chooseDevice file en).trace.count (.release r) = 0 := by
  intro r _
  exact ⟨count_chooseDevice _ _ _ (by intro d; simp), count_chooseDevice _ _ _ (by intro d; simp)⟩

theorem quiet_buildStep (tc : Toolchain) (api : Driver) :
    ∀ r ∈ wrapped, (buildStep tc api).trace.count (.create r) = 0 ∧
      (buildStep tc api).trace.count (.release r) = 0 := by
  intro r _
  exact ⟨count_buildStep _ _ _ (by intro s; simp) (by simp),
    count_buildStep _ _ _ (by intro s; simp) (by simp)⟩

theorem quiet_dispatchStep {F : Type} (tc : Toolchain) (api : Driver) (ops : FloatOps F)
    (n bufSize : Nat) (as bs cs : Nat → F) :
    ∀ r ∈ wrapped, (dispatchStep tc api ops n bufSize as bs cs).trace.count (.create r) = 0 ∧
      (dispatchStep tc api ops n bufSize as bs cs).trace.count (.release r) = 0 := by
  intro r hr
  have hk : ∀ j, Ev.create (.kernelEvent j) ≠ Ev.create r := by
    intro j h
    injection h with h
    subst h
    simp [wrapped] at hr
  have hre : ∀ j, Ev.create (.readEvent j) ≠ Ev.create r := by
    intro j h
    injection h with h
    subst h
    simp [wrapped] at hr
  exact ⟨count_dispatchStep _ _ _ _ _ _ _ _ _ (by intro s; simp) (by intro q; simp) (by simp)
      hk hre,
    count_dispatchStep _ _ _ _ _ _ _ _ _ (by intro s; simp) (by intro q; simp) (by simp)
      (by intro j; simp) (by intro j; simp)⟩

theorem balanced_main {F : Type} (tc : Toolchain) (api : Driver) (ops : FloatOps F) (n : Nat)
    (as bs cs : Nat → F) : Balanced wrapped (main tc api ops n as bs cs).trace := by
  unfold main
  split
  · exact balanced_of_quiet _ _ (fun r _ => by simp)
  · simp only [bind_eq_andThen]
    refine balanced_andThen _ _ _ (quiet_chooseDevice _ _) (fun _ => ?_)
    refine balanced_raii _ _ _ _ _ _ _ (by decide) ?_
    refine balanced_andThen _ _ _ (quiet_OCL_SAFE_CALL _ _ _) (fun _ => ?_)
    refine balanced_raii _ _ _ _ _ _ _ (by decide) ?_
    refine balanced_andThen _ _ _ (quiet_OCL_SAFE_CALL _ _ _) (fun _ => ?_)
    refine balanced_andThen _ _ _ (quiet_emit _ (by simp)) (fun _ => ?_)
    refine balanced_andThen _ _ _ (quiet_emit _ (by simp)) (fun _ => ?_)
    refine balanced_andThen _ _ _ (quiet_emit _ (by simp)) (fun _ => ?_)
    refine balanced_andThen _ _ _ (quiet_emit _ (by simp)) (fun _ => ?_)
    refine balanced_raii _ _ _ _ _ _ _ (by decide) ?_
    refine balanced_andThen _ _ _ (quiet_OCL_SAFE_CALL _ _ _) (fun _ => ?_)
    refine balanced_raii _ _ _ _ _ _ _ (by decide) ?_
    refine balanced_andThen _ _ _ (quiet_OCL_SAFE_CALL _ _ _) (fun _ => ?_)
    refine balanced_raii _ _ _ _ _ _ _ (by decide) ?_
    refine balanced_andThen _ _ _ (quiet_OCL_SAFE_CALL _ _ _) (fun _ => ?_)
    unfold programStep
    dsimp only
    split
    · exact balanced_of_quiet _ _ (fun r _ => by simp)
    · refine balanced_raii _ _ _ _ _ _ _ (by decide) ?_
      simp only [bind_eq_andThen]
      refine balanced_andThen _ _ _ (quiet_OCL_SAFE_CALL _ _ _) (fun _ => ?_)
      refine balanced_andThen _ _ _ (quiet_buildStep _ _) (fun _ => ?_)
      refine balanced_raii _ _ _ _ _ _ _ (by decide) ?_
      refine balanced_andThen _ _ _ (quiet_OCL_SAFE_CALL _ _ _) (fun _ => ?_)
      exact balanced_of_quiet _ _ (quiet_dispatchStep _ _ _ _ _ _ _ _)

/-- In every run of `main`, whatever the runtime answers and wherever an error
ends the run, each of the seven wrapped objects is created at most once, its
release call is made at most once, and if it was created its release call is
made exactly once. -/
theorem wrapped_released_once {F : Type} (tc : Toolchain) (api : Driver) (ops : FloatOps F)
    (n : Nat) (as bs cs : Nat → F) (r : Res) (hr : r ∈ wrapped) :
    (main tc api ops n as bs cs).trace.count (.create r) ≤ 1 ∧
    (main tc api ops n as bs cs).trace.count (.release r) ≤ 1 ∧
    (Ev.create r ∈ (main tc api ops n as bs cs).trace →
      (main tc api ops n as bs cs).trace.count (.release r) = 1) := by
  obtain ⟨_, h2, h3⟩ := balanced_main tc api ops n as bs cs r hr
  refine ⟨by omega, h3, fun hmem => ?_⟩
  have := List.count_pos_iff.mpr hmem
  omega

set_option maxRecDepth 100000 in
/-- Buffer A in the run in which every call succeeds. -/
theorem wrapped_released_once_witness :
    Res.aBuf ∈ wrapped ∧
    Ev.create Res.aBuf ∈ (main sampleToolchain okDriver Binary32.ops 4 Binary32.scenarioA
      Binary32.scenarioB Binary32.scenarioC).trace ∧
    (main sampleToolchain okDriver Binary32.ops 4 Binary32.scenarioA Binary32.scenarioB
      Binary32.scenarioC).trace.count (.release .aBuf) = 1 :=
  ⟨by decide, by decide,
    (wrapped_released_once sampleToolchain okDriver Binary32.ops 4 Binary32.scenarioA
      Binary32.scenarioB Binary32.scenarioC .aBuf (by decide)).2.2 (by decide)⟩


end APlusB
